import Mathlib

/-!
Shallow embedding of `src/bubbly/bubbly.py` (bubble-chart figure builder).

Modelling conventions:
- Python scalar cell values are modelled by `Bubbly.Value` (ints, floats as
  exact rationals, strings, booleans).  Float rounding is not modelled; all
  arithmetic the claims mention is exact in the source formulas.
- A pandas `DataFrame` is modelled column-oriented: a list of named columns,
  each a list of values (pandas guarantees equal column lengths).
- Python operations that raise (missing grid key, `min` of an empty sequence,
  `int` of a non-numeric string, arithmetic on strings) are modelled by
  `Option`: `none` is an uncaught Python exception.
- `np.log10` never raises on non-positive input: it returns `nan` for negative
  arguments and `-inf` for zero (with only a runtime warning).  The embedding
  models this with `NpFloat`.  The value of `log10` on positive rationals is
  transcendental; it is abstracted by a parameter `log10pos : Rat -> Rat`
  everywhere (no claim depends on its concrete values).
-/

namespace Bubbly

/-- A Python scalar cell value: `int`, `float` (kept exact as a rational),
`str`, or `bool`. -/
inductive Value where
  | int (n : Int)
  | rat (q : ℚ)
  | str (s : String)
  | bool (b : Bool)
deriving DecidableEq, Repr

/-- Python `str()` of a cell value as used in key templates, frame names and
slider labels.  (`str` of a float is modelled by the rational printer; every
claim below only exercises it on ints, where it agrees with Python.) -/
def pyStr : Value → String
  | .int n => toString n
  | .rat q => toString q
  | .str s => s
  | .bool b => if b then "True" else "False"

/-- Numeric view of a value, mirroring Python arithmetic/comparison semantics:
ints and floats are numbers, `bool` is an int subtype (`True == 1`), strings
are not numbers (`none`: mixing them with numbers raises `TypeError`). -/
def Value.toQ? : Value → Option ℚ
  | .int n => some (n : ℚ)
  | .rat q => some q
  | .bool b => some (if b then 1 else 0)
  | .str _ => none

/-- Python `==` between two cell values (pandas elementwise comparison):
numeric kinds compare by value, strings compare by content, a string never
equals a number. -/
def pyEq (a b : Value) : Bool :=
  match a, b with
  | .str s, .str t => s == t
  | .str _, _ => false
  | _, .str _ => false
  | a, b => decide (a.toQ? = b.toQ?)

/-- Python `int()` of a cell value as used by `dataset[time_column] == int(year)`:
ints unchanged, floats truncate toward zero, bools become 0/1, strings parse as
a decimal integer or raise (`none`). -/
def pyInt? : Value → Option Int
  | .int n => some n
  | .rat q => some (q.num.tdiv (q.den : Int))
  | .bool b => some (if b then 1 else 0)
  | .str s => s.toInt?

/-- Python truthiness of a cell value (`if category:` in `getTrace`). -/
def truthyV : Value → Bool
  | .int n => decide (n ≠ 0)
  | .rat q => decide (q ≠ 0)
  | .str s => decide (s ≠ "")
  | .bool b => b

/-- Python truthiness of an optional column-name argument
(`if color_column:` etc.): `None` and the empty string are falsy. -/
def truthyS (o : Option String) : Bool :=
  match o with
  | some s => decide (s ≠ "")
  | none => false

/-- Python truthiness of an optional numeric argument
(`if marker_opacity:` etc.): `None` and `0` are falsy. -/
def truthyQ (o : Option ℚ) : Bool :=
  match o with
  | some q => decide (q ≠ 0)
  | none => false

/-- Python truthiness of an optional int argument (`if width:`): `None` and
`0` are falsy. -/
def truthyI (o : Option Int) : Bool :=
  match o with
  | some n => decide (n ≠ 0)
  | none => false

/-- Python `<` between two cell values, as used by builtin `min` over a
column: numbers compare numerically, strings lexicographically, a string
against a number raises `TypeError` (`none`). -/
def vLt (a b : Value) : Option Bool :=
  match a, b with
  | .str s, .str t => some (decide (s < t))
  | .str _, _ => none
  | _, .str _ => none
  | a, b =>
    match a.toQ?, b.toQ? with
    | some x, some y => some (decide (x < y))
    | _, _ => none

/-- Python builtin `min` over an iterable of cell values: left fold keeping
the accumulator unless the next element compares strictly smaller.  Empty
input raises `ValueError` (`none`). -/
def pyMinV (l : List Value) : Option Value :=
  match l with
  | [] => none
  | x :: xs =>
    xs.foldl
      (fun acc v => do
        let a ← acc
        let b ← vLt v a
        pure (if b then v else a))
      (some x)

/-- Minimum of a nonempty rational list (Python builtin `min` on numbers). -/
def qMin (l : List ℚ) : Option ℚ :=
  match l with
  | [] => none
  | x :: xs => some (xs.foldl min x)

/-- Maximum of a nonempty rational list (Python builtin `max` on numbers). -/
def qMax (l : List ℚ) : Option ℚ :=
  match l with
  | [] => none
  | x :: xs => some (xs.foldl max x)

/-- In-order effectful map over `Option` (the Python `for` loops below run
left to right and abort at the first raised exception). -/
def mapO {α β : Type} (f : α → Option β) : List α → Option (List β)
  | [] => some []
  | x :: xs => do
    let y ← f x
    let ys ← mapO f xs
    pure (y :: ys)

/-- A numpy float result: finite, `nan`, or `-inf` (the two non-finite values
`np.log10` can produce on the reals the claims exercise). -/
inductive NpFloat where
  | nan
  | neginf
  | fin (q : ℚ)
deriving DecidableEq, Repr

/-- `np.log10` on one number: negative input gives `nan`, zero gives `-inf`
(no exception, only a runtime warning), positive input gives the (abstracted)
finite logarithm. -/
def npLog10 (log10pos : ℚ → ℚ) (q : ℚ) : NpFloat :=
  if q < 0 then .nan else if q = 0 then .neginf else .fin (log10pos q)

/-- IEEE `<` on the modelled numpy floats: every comparison with `nan` is
false, `-inf` is below every finite value. -/
def npLt : NpFloat → NpFloat → Bool
  | _, .nan => false
  | .nan, _ => false
  | .neginf, .neginf => false
  | .neginf, .fin _ => true
  | .fin _, .neginf => false
  | .fin a, .fin b => decide (a < b)

/-- Python builtin `min` over numpy floats: fold with `npLt`, so a `nan` in a
non-leading position is silently skipped (IEEE comparisons with `nan` are
false).  Empty input raises (`none`). -/
def npMinFold (l : List NpFloat) : Option NpFloat :=
  match l with
  | [] => none
  | x :: xs => some (xs.foldl (fun acc v => if npLt v acc then v else acc) x)

/-- Python builtin `max` over numpy floats, same fold semantics as
`npMinFold`. -/
def npMaxFold (l : List NpFloat) : Option NpFloat :=
  match l with
  | [] => none
  | x :: xs => some (xs.foldl (fun acc v => if npLt acc v then v else acc) x)

/-- Multiplication of a numpy float by a positive rational constant
(the padding factors 0.97, 1.04): `nan` and `-inf` absorb. -/
def npMulPos : NpFloat → ℚ → NpFloat
  | .nan, _ => .nan
  | .neginf, _ => .neginf
  | .fin a, c => .fin (a * c)

/-- Embedding of `setRange(values, logscale)` (source lines 654-674).
Linear branch: `[min(values)*0.7, max(values)*1.4]`.  Log branch:
`[min(np.log10(values))*0.97, max(np.log10(values))*1.04]` with the numpy
non-finite semantics of `npLog10`.  Non-numeric values raise (`none`), as does
an empty input (builtin `min`/`max` of an empty sequence). -/
def setRange (log10pos : ℚ → ℚ) (values : List Value) (logscale : Bool) :
    Option (NpFloat × NpFloat) := do
  if logscale then
    let qs ← mapO Value.toQ? values
    let logs := qs.map (npLog10 log10pos)
    let rmin ← npMinFold logs
    let rmax ← npMaxFold logs
    pure (npMulPos rmin (97 / 100), npMulPos rmax (104 / 100))
  else
    let qs ← mapO Value.toQ? values
    let rmin ← qMin qs
    let rmax ← qMax qs
    pure (.fin (rmin * (7 / 10)), .fin (rmax * (14 / 10)))

/-- A pandas `DataFrame`: an ordered collection of named columns.  pandas
keeps all columns the same length; claims that depend on row alignment state
that as a hypothesis. -/
structure Dataset where
  cols : List (String × List Value)
deriving DecidableEq, Repr

/-- Column access `dataset[name]`.  A missing column raises `KeyError` in
Python; it is modelled as the empty column (every claim below only reads
columns it assumes present). -/
def Dataset.col (d : Dataset) (name : String) : List Value :=
  match d.cols.find? (fun p => p.1 == name) with
  | some p => p.2
  | none => []

/-- `pandas.unique`: the distinct elements of a list in first-seen order
(`seen` accumulates the values already emitted). -/
def uniqAux {α : Type} [DecidableEq α] : List α → List α → List α
  | [], _ => []
  | x :: xs, seen => if x ∈ seen then uniqAux xs seen else x :: uniqAux xs (x :: seen)

/-- The distinct elements of a list in first-seen order (pandas
`Series.unique`). -/
def uniq {α : Type} [DecidableEq α] (l : List α) : List α := uniqAux l []

/-- One row of the grid DataFrame: a composite string key and the value list
stored under it. -/
structure GridEntry where
  key : String
  value : List Value
deriving DecidableEq, Repr

/-- Rows of `dataset` whose `tc` column equals the integer `t`, projected to
column `c` (the pandas boolean-mask filter
`dataset[dataset[tc] == t][c]`, in original row order). -/
def filterByTime (d : Dataset) (tc : String) (t : Int) (c : String) : List Value :=
  ((d.col tc).zip (d.col c)).filterMap
    (fun p => if pyEq p.1 (Value.int t) then some p.2 else none)

/-- Rows of `dataset` whose `tc` column equals the integer `t` and whose `cc`
column equals `cat`, projected to column `c`. -/
def filterByTimeCat (d : Dataset) (tc : String) (t : Int) (cc : String) (cat : Value)
    (c : String) : List Value :=
  (((d.col tc).zip (d.col cc)).zip (d.col c)).filterMap
    (fun p => if pyEq p.1.1 (Value.int t) && pyEq p.1.2 cat then some p.2 else none)

/-- Rows of `dataset` whose `cc` column equals `cat`, projected to column
`c`. -/
def filterByCat (d : Dataset) (cc : String) (cat : Value) (c : String) : List Value :=
  ((d.col cc).zip (d.col c)).filterMap
    (fun p => if pyEq p.1 cat then some p.2 else none)

/-- The composite key `"<time>+<column>_grid"` (template
`"{}+{}_grid".format(year, col_name)`). -/
def timeKey (year : Value) (col : String) : String :=
  pyStr year ++ "+" ++ col ++ "_grid"

/-- The composite key `"<time>+<column>+<category>_grid"` (template
`"{}+{}+{}_grid".format(year, col_name, category)`). -/
def timeCatKey (year : Value) (col : String) (cat : Value) : String :=
  pyStr year ++ "+" ++ col ++ "+" ++ pyStr cat ++ "_grid"

/-- The composite key `"<column>+<category>_grid"` (template
`"{}+{}_grid".format(col_name, category)`). -/
def catKey (col : String) (cat : Value) : String :=
  col ++ "+" ++ pyStr cat ++ "_grid"

/-- Inner loop of `makeGrid` for one `year` (source lines 297-307): coerce the
year with `int()`, then for each requested column append one entry holding the
filtered values, skipping empty subsets. -/
def gridRowsForYear (d : Dataset) (tc : String) (column_names : List String)
    (year : Value) : Option (List GridEntry) := do
  let yi ← pyInt? year
  pure (column_names.filterMap (fun col =>
    let vs := filterByTime d tc yi col
    if vs.isEmpty then none else some { key := timeKey year col, value := vs }))

/-- Embedding of `makeGrid` (source lines 277-314).  With a time column the
grid is the year-major, column-minor concatenation of the per-year rows; with
no time column each requested column is stored whole under `"<col>_grid"`
(with no emptiness check, unlike the time branch). -/
def makeGrid (dataset : Dataset) (column_names : List String)
    (time_column : Option String) (years : Option (List Value)) :
    Option (List GridEntry) :=
  if truthyS time_column then
    let tc := time_column.getD ""
    let ys := years.getD (uniq (dataset.col tc))
    (mapO (gridRowsForYear dataset tc column_names) ys).map List.flatten
  else
    some (column_names.map (fun col =>
      { key := col ++ "_grid", value := dataset.col col }))

/-- Inner loop of `makeGridWithCategories` for one `(year, category)` pair
(source lines 346-356). -/
def gridRowsForYearCat (d : Dataset) (tc : String) (cc : String)
    (column_names : List String) (year : Value) (cat : Value) :
    Option (List GridEntry) := do
  let yi ← pyInt? year
  pure (column_names.filterMap (fun col =>
    let vs := filterByTimeCat d tc yi cc cat col
    if vs.isEmpty then none else some { key := timeCatKey year col cat, value := vs }))

/-- Inner loop of the no-time branch of `makeGridWithCategories` for one
category (source lines 361-371). -/
def gridRowsForCat (d : Dataset) (cc : String) (column_names : List String)
    (cat : Value) : List GridEntry :=
  column_names.filterMap (fun col =>
    let vs := filterByCat d cc cat col
    if vs.isEmpty then none else some { key := catKey col cat, value := vs })

/-- Embedding of `makeGridWithCategories` (source lines 316-373): year-major,
category-middle, column-minor concatenation when a time column exists, else
category-major over whole-dataset category slices.  Both branches skip empty
subsets. -/
def makeGridWithCategories (dataset : Dataset) (column_names : List String)
    (time_column : Option String) (category_column : String)
    (years : Option (List Value)) (categories : Option (List Value)) :
    Option (List GridEntry) :=
  let cats := categories.getD (uniq (dataset.col category_column))
  if truthyS time_column then
    let tc := time_column.getD ""
    let ys := years.getD (uniq (dataset.col tc))
    (mapO (fun y =>
      (mapO (gridRowsForYearCat dataset tc category_column column_names y) cats).map
        List.flatten) ys).map List.flatten
  else
    some ((cats.map (gridRowsForCat dataset category_column column_names)).flatten)

/-- Grid lookup `grid.loc[grid['key'] == k, 'value'].values[0]`: the value
list of the first entry with the given key; an absent key raises `IndexError`
(`none`). -/
def lookupGrid (grid : List GridEntry) (k : String) : Option (List Value) :=
  (grid.find? (fun e => e.key == k)).map (fun e => e.value)

/-- The partially applied key templates `bubbleplot` hands to `getTrace`.
The source represents them as format strings with the time value already
substituted and literal placeholder braces re-inserted (via
`col_name_template.format(year, ..)` applied to empty dicts); the embedding
keeps the four possible shapes symbolically:
`noTime` is the one-placeholder template, `timeOnly ys` is the
year-prefixed one-placeholder template, `catNoTime` is the two-placeholder
column-plus-category template, and `timeCat ys` is the year-prefixed
column-plus-category template. -/
inductive KeyTemplate where
  | noTime
  | timeOnly (ys : String)
  | catNoTime
  | timeCat (ys : String)
deriving DecidableEq, Repr

/-- Python `str()` of the optional category argument when a template
substitutes it (`str(None)` is the literal text `None`). -/
def pyStrOpt : Option Value → String
  | some v => pyStr v
  | none => "None"

/-- Format a key template with a column name and the category argument
(`col_name_template.format(col, category)`); templates with a single
placeholder ignore the extra argument, as Python `format` does. -/
def KeyTemplate.fmt2 : KeyTemplate → String → Option Value → String
  | .noTime, col, _ => col ++ "_grid"
  | .timeOnly ys, col, _ => ys ++ "+" ++ col ++ "_grid"
  | .catNoTime, col, cat => col ++ "+" ++ pyStrOpt cat ++ "_grid"
  | .timeCat ys, col, cat => ys ++ "+" ++ col ++ "+" ++ pyStrOpt cat ++ "_grid"

/-- Format a key template with only a column name
(`col_name_template.format(color_column)`, the color lookup); a template with
two remaining placeholders raises `IndexError` (`none`). -/
def KeyTemplate.fmt1 : KeyTemplate → String → Option String
  | .noTime, col => some (col ++ "_grid")
  | .timeOnly ys, col => some (ys ++ "+" ++ col ++ "_grid")
  | .catNoTime, _ => none
  | .timeCat _, _ => none

/-- The bubble size entry of a marker: either the looked-up per-row list
(size column given) or the fixed scalar `10 * scale_bubble`. -/
inductive SizeSpec where
  | list (vs : List Value)
  | scalar (q : ℚ)
deriving DecidableEq, Repr

/-- The `marker` sub-mapping of a trace.  Each `Option` field models presence
of the corresponding dict key; `colorbar` stores the colorbar title and
`colorscale` stores the (possibly `None`) colorscale argument. -/
structure Marker where
  sizemode : Option String
  sizeref : Option ℚ
  size : SizeSpec
  opacity : Option ℚ
  lineWidth : Option ℚ
  color : Option (List Value)
  colorbar : Option (Option String)
  colorscale : Option (Option String)
deriving DecidableEq, Repr

/-- One trace mapping (`getTrace` result): positional arrays, text labels,
marker styling, optional `scatter3d` type tag and optional category name. -/
structure Trace where
  x : List Value
  y : List Value
  text : List Value
  z : Option (List Value)
  mode : String
  marker : Marker
  typ : Option String
  name : Option Value
deriving DecidableEq, Repr

/-- The z-axis lookup of `getTrace` (source lines 713-715): the z series when
a z column is given, an absent key otherwise. -/
def zLookup (grid : List GridEntry) (tmpl : KeyTemplate) (z_column : Option String)
    (category : Option Value) : Option (Option (List Value)) :=
  if truthyS z_column then
    (lookupGrid grid (tmpl.fmt2 (z_column.getD "") category)).map some
  else some none

/-- The initial marker of `getTrace` (source lines 717-729): the size-column
variant (`sizemode`, `sizeref` and the looked-up size list) or the fixed
`10 * scale_bubble` size. -/
def baseMarker (grid : List GridEntry) (tmpl : KeyTemplate)
    (size_column : Option String) (sizeref : Option ℚ) (scale_bubble : ℚ)
    (category : Option Value) : Option Marker :=
  if truthyS size_column then
    (lookupGrid grid (tmpl.fmt2 (size_column.getD "") category)).map
      (fun svs =>
        { sizemode := some "area", sizeref := sizeref, size := SizeSpec.list svs,
          opacity := none, lineWidth := none, color := none,
          colorbar := none, colorscale := none })
  else
    some
      { sizemode := none, sizeref := none,
        size := SizeSpec.scalar (10 * scale_bubble),
        opacity := none, lineWidth := none, color := none,
        colorbar := none, colorscale := none }

/-- The numeric-color decoration of the marker (source lines 739-743): the
template is formatted with the color column name only (raising on templates
with two remaining placeholders), and the color list, colorbar title and
colorscale are attached. -/
def colorMarker (grid : List GridEntry) (tmpl : KeyTemplate)
    (color_column colorscale : Option String) (colorbar_title : Option String)
    (m : Marker) : Option Marker :=
  if truthyS color_column then do
    let k ← tmpl.fmt1 (color_column.getD "")
    let cvs ← lookupGrid grid k
    pure { m with color := some cvs, colorbar := some colorbar_title,
                  colorscale := some colorscale }
  else some m

/-- Embedding of `getTrace` (source lines 676-749): look up each required
series in the grid through the key template, then assemble the marker (size
column or fixed size, then opacity, border width and the numeric color
lookup, which formats the template with the column name only) and the trace;
`if category:` attaches the category as the trace name only when the category
value is truthy.  The `show_colorbar` parameter is accepted and never read,
exactly as in the source. -/
def getTrace (grid : List GridEntry) (tmpl : KeyTemplate)
    (x_column y_column bubble_column : String)
    (z_column size_column : Option String) (sizeref : Option ℚ)
    (scale_bubble : ℚ) (marker_opacity marker_border_width : Option ℚ)
    (color_column colorscale : Option String) (show_colorbar : Bool)
    (colorbar_title : Option String) (category : Option Value) :
    Option Trace := do
  let xs ← lookupGrid grid (tmpl.fmt2 x_column category)
  let ys ← lookupGrid grid (tmpl.fmt2 y_column category)
  let texts ← lookupGrid grid (tmpl.fmt2 bubble_column category)
  let zs ← zLookup grid tmpl z_column category
  let marker0 ← baseMarker grid tmpl size_column sizeref scale_bubble category
  let marker1 :=
    if truthyQ marker_opacity then { marker0 with opacity := marker_opacity }
    else marker0
  let marker2 :=
    if truthyQ marker_border_width then { marker1 with lineWidth := marker_border_width }
    else marker1
  let marker3 ← colorMarker grid tmpl color_column colorscale colorbar_title marker2
  pure
    { x := xs, y := ys, text := texts, z := zs, mode := "markers",
      marker := marker3, typ := none,
      name :=
        match category with
        | some cv => if truthyV cv then some cv else none
        | none => none }

/-- `trace['type'] = 'scatter3d'` applied after each `getTrace` call when a z
column is present (`if z_column:` at the call sites). -/
def markScatter3d (b : Bool) (t : Trace) : Trace :=
  if b then { t with typ := some "scatter3d" } else t

/-- One axis configuration dict (`set2Daxes` / `set3Daxes` entries plus the
range injected later by `bubbleplot`). -/
structure AxisSpec where
  title : Option String
  autorange : Bool
  typ : Option String
  range : Option (NpFloat × NpFloat)
deriving DecidableEq, Repr

/-- The `scene` member holding the three axes of a 3D figure. -/
structure SceneSpec where
  xaxis : AxisSpec
  yaxis : AxisSpec
  zaxis : AxisSpec
deriving DecidableEq, Repr

/-- The fixed margin spec `dict(b=50, t=50, pad=5)`. -/
structure Margin where
  b : ℚ
  t : ℚ
  pad : ℚ
deriving DecidableEq, Repr

/-- One step of the animation slider (`addSliderSteps`); the fixed timing
constants of the step are static and omitted. -/
structure SliderStep where
  yearArg : Value
  label : String
  method : String
deriving DecidableEq, Repr

/-- The slider configuration dict built by `addSlider` and returned to
`bubbleplot`; static styling constants (anchors, font, paddings) are omitted,
the mutable `steps` list is kept. -/
structure SlidersDict where
  active : Nat
  steps : List SliderStep
deriving DecidableEq, Repr

/-- The provisional `layout['sliders']` dict `addSlider` installs
(`initialValue = min(slider_scale)`, the full value list, visibility). -/
structure SliderInit where
  initialValue : Value
  values : List Value
  visible : Bool
deriving DecidableEq, Repr

/-- The two successive values the `sliders` layout key holds: the provisional
dict from `addSlider`, later overwritten by `bubbleplot` with the one-element
list holding the populated slider dict. -/
inductive SlidersValue where
  | initDict (d : SliderInit)
  | finalList (l : List SlidersDict)
deriving DecidableEq, Repr

/-- One button of the play/pause control; the fixed animation timing constants
are static and omitted. -/
structure ButtonSpec where
  label : String
  method : String
deriving DecidableEq, Repr

/-- One entry of `layout['updatemenus']` (`addButton`). -/
structure UpdateMenu where
  buttons : List ButtonSpec
  direction : String
  typ : String
deriving DecidableEq, Repr

/-- The `layout` mapping.  Every field is `Option`-typed: `none` models an
absent dict key, `some` a present key (so conditional keys such as `width`,
`sliders` and `updatemenus` can be distinguished from never-written ones). -/
structure Layout where
  xaxis : Option AxisSpec
  yaxis : Option AxisSpec
  scene : Option SceneSpec
  title : Option (Option String)
  hovermode : Option String
  showlegend : Option Bool
  margin : Option Margin
  width : Option Int
  height : Option Int
  sliders : Option SlidersValue
  updatemenus : Option (List UpdateMenu)
deriving DecidableEq, Repr

/-- The empty layout dict `{}`. -/
def Layout.empty : Layout :=
  { xaxis := none, yaxis := none, scene := none, title := none,
    hovermode := none, showlegend := none, margin := none,
    width := none, height := none, sliders := none, updatemenus := none }

/-- One animation frame: its trace list and its name (`str(year)`). -/
structure Frame where
  data : List Trace
  name : String
deriving DecidableEq, Repr

/-- The chart descriptor returned by `bubbleplot`: base traces, layout and
animation frames. -/
structure Figure where
  data : List Trace
  layout : Layout
  frames : List Frame
deriving DecidableEq, Repr

/-- Embedding of `set2Daxes` (source lines 439-461): titled x/y axes with
`autorange` off and an optional log type. -/
def set2Daxes (figure : Figure) (x_title y_title : Option String)
    (x_logscale y_logscale : Bool) : Figure :=
  let xa : AxisSpec :=
    { title := x_title, autorange := false,
      typ := if x_logscale then some "log" else none, range := none }
  let ya : AxisSpec :=
    { title := y_title, autorange := false,
      typ := if y_logscale then some "log" else none, range := none }
  { figure with layout := { figure.layout with xaxis := some xa, yaxis := some ya } }

/-- Embedding of `set3Daxes` (source lines 463-496): the same three axis
specs nested under `scene`. -/
def set3Daxes (figure : Figure) (x_title y_title z_title : Option String)
    (x_logscale y_logscale z_logscale : Bool) : Figure :=
  let xa : AxisSpec :=
    { title := x_title, autorange := false,
      typ := if x_logscale then some "log" else none, range := none }
  let ya : AxisSpec :=
    { title := y_title, autorange := false,
      typ := if y_logscale then some "log" else none, range := none }
  let za : AxisSpec :=
    { title := z_title, autorange := false,
      typ := if z_logscale then some "log" else none, range := none }
  { figure with layout :=
      { figure.layout with scene := some { xaxis := xa, yaxis := ya, zaxis := za } } }

/-- Embedding of `addSlider` (source lines 498-556): install the provisional
`sliders` dict (whose `initialValue` is `min(slider_scale)`, raising on `None`
or an empty scale) and return the fresh slider configuration with empty
steps. -/
def addSlider (figure : Figure) (slider_scale : Option (List Value)) :
    Option (Figure × SlidersDict) := do
  let vs ← slider_scale
  let initVal ← pyMinV vs
  let sv := SlidersValue.initDict { initialValue := initVal, values := vs, visible := true }
  let figure := { figure with layout := { figure.layout with sliders := some sv } }
  pure (figure, { active := 0, steps := [] })

/-- One slider step appended by `addSliderSteps` (source lines 558-585). -/
def mkSliderStep (year : Value) : SliderStep :=
  { yearArg := year, label := pyStr year, method := "animate" }

/-- Embedding of `addButton` (source lines 587-652): attach the fixed
play/pause `updatemenus` entry. -/
def addButton (figure : Figure) : Figure :=
  let menu : UpdateMenu :=
    { buttons := [{ label := "Play", method := "animate" },
                  { label := "Pause", method := "animate" }],
      direction := "left", typ := "buttons" }
  { figure with layout := { figure.layout with updatemenus := some [menu] } }

/-- Embedding of `setLayout` (source lines 375-437): build the empty figure,
set the axes (2D or 3D), the always-written keys (`title`, `hovermode`,
`showlegend`, `margin`), the conditional `width`/`height` keys (withheld when
the argument is `None` or `0`, by Python truthiness), then install the slider
and the play/pause buttons when requested. -/
def setLayout (x_title y_title z_title title : Option String)
    (x_logscale y_logscale z_logscale axes3D : Bool)
    (show_slider : Bool) (slider_scale : Option (List Value))
    (show_button : Bool) (show_legend : Bool)
    (width height : Option Int) : Option (Figure × SlidersDict) := do
  let figure : Figure := { data := [], layout := Layout.empty, frames := [] }
  let figure :=
    if axes3D then set3Daxes figure x_title y_title z_title x_logscale y_logscale z_logscale
    else set2Daxes figure x_title y_title x_logscale y_logscale
  let figure :=
    { figure with layout :=
        { figure.layout with
            title := some title, hovermode := some "closest",
            showlegend := some show_legend, margin := some { b := 50, t := 50, pad := 5 } } }
  let figure :=
    if truthyI width then { figure with layout := { figure.layout with width := width } }
    else figure
  let figure :=
    if truthyI height then { figure with layout := { figure.layout with height := height } }
    else figure
  let (figure, sliders_dict) ←
    if show_slider then addSlider figure slider_scale
    else pure (figure, ({ active := 0, steps := [] } : SlidersDict))
  let figure := if show_button then addButton figure else figure
  pure (figure, sliders_dict)

/-- The pandas dtype name of a column, as inspected by
`dataset[color_column].dtype.name`: all-int columns are `int64`, numeric
columns with a float are `float64`, all-bool columns are `bool`, anything
mixed or string-valued is `object`, and an empty column defaults to
`float64`. -/
def dtypeName (vs : List Value) : String :=
  if vs.isEmpty then "float64"
  else if vs.all (fun v => match v with | .int _ => true | _ => false) then "int64"
  else if vs.all (fun v => match v with | .int _ => true | .rat _ => true | _ => false) then
    "float64"
  else if vs.all (fun v => match v with | .bool _ => true | _ => false) then "bool"
  else "object"

/-- Embedding of the color-column reclassification at the top of `bubbleplot`
(source lines 57-66): when a (truthy) color column holds categorical, object
or boolean data it becomes the categorical grouping column and the numeric
color column is cleared.  Returns `(category_column, color_column)`. -/
def classifyColor (dataset : Dataset) (color_column : Option String) :
    Option String × Option String :=
  if truthyS color_column then
    let c := color_column.getD ""
    if dtypeName (dataset.col c) ∈ (["category", "object", "bool"] : List String) then
      (some c, none)
    else
      (none, color_column)
  else
    (none, color_column)

/-- The size reference computation of `bubbleplot` (source line 144):
`sizeref = 2 * max(dataset[size_column]) / (scale_bubble * 80 ** 2)`; raises
(`none`) when the column is empty or non-numeric. -/
def computeSizeref (dataset : Dataset) (size_column : String) (scale_bubble : ℚ) :
    Option ℚ := do
  let qs ← mapO Value.toQ? (dataset.col size_column)
  let m ← qMax qs
  pure (2 * m / (scale_bubble * 80 ^ 2))

/-- The keyword arguments of `bubbleplot` (everything except the dataset),
with the same names as the source parameters; `Option` models a `None`
default. -/
structure BubbleArgs where
  x_column : String
  y_column : String
  bubble_column : String
  z_column : Option String
  time_column : Option String
  size_column : Option String
  color_column : Option String
  x_logscale : Bool
  y_logscale : Bool
  z_logscale : Bool
  x_range : Option (ℚ × ℚ)
  y_range : Option (ℚ × ℚ)
  z_range : Option (ℚ × ℚ)
  x_title : Option String
  y_title : Option String
  z_title : Option String
  title : Option String
  colorbar_title : Option String
  scale_bubble : ℚ
  colorscale : Option String
  marker_opacity : Option ℚ
  marker_border_width : Option ℚ
  show_slider : Bool
  show_button : Bool
  show_colorbar : Bool
  show_legend : Option Bool
  width : Option Int
  height : Option Int
deriving DecidableEq, Repr

/-- The default argument values of the `bubbleplot` signature (source lines
11-22), to be overridden per call. -/
def defaultArgs (x_column y_column bubble_column : String) : BubbleArgs :=
  { x_column := x_column, y_column := y_column, bubble_column := bubble_column,
    z_column := none, time_column := none, size_column := none, color_column := none,
    x_logscale := false, y_logscale := false, z_logscale := false,
    x_range := none, y_range := none, z_range := none,
    x_title := none, y_title := none, z_title := none, title := none,
    colorbar_title := none, scale_bubble := 1, colorscale := none,
    marker_opacity := none, marker_border_width := none,
    show_slider := true, show_button := true, show_colorbar := true,
    show_legend := none, width := none, height := none }

/-- The column-name list `bubbleplot` assembles for the grid builders (source
lines 82-102): x, y, optional z, bubble text, optional size, optional
(numeric) color. -/
def columnNames (a : BubbleArgs) (color_column : Option String) : List String :=
  let ns := [a.x_column, a.y_column]
  let ns := if truthyS a.z_column then ns ++ [a.z_column.getD ""] else ns
  let ns := ns ++ [a.bubble_column]
  let ns := if truthyS a.size_column then ns ++ [a.size_column.getD ""] else ns
  let ns := if truthyS color_column then ns ++ [color_column.getD ""] else ns
  ns

/-- The trace/frame/slider-step construction of `bubbleplot` (source lines
148-247).  Categorical branch: one base trace per category at the earliest
time (or the whole-category slice without a time column), then per year one
frame holding one trace per category; plain branch: a single base trace (with
the numeric color arguments) and per year one single-trace frame.  Slider
steps accumulate one entry per year when the slider is shown.  Returns
`(data, frames, steps)`. -/
def buildDataFrames (grid : List GridEntry) (a : BubbleArgs)
    (category_column color_column : Option String)
    (categories years : List Value) (axes3D show_slider : Bool)
    (sizeref : Option ℚ) : Option (List Trace × List Frame × List SliderStep) := do
  match category_column with
  | some _ => do
    let tmplBase ←
      if truthyS a.time_column then do
        let year ← pyMinV years
        pure (KeyTemplate.timeCat (pyStr year))
      else
        pure KeyTemplate.catNoTime
    let data ← mapO (fun category =>
      (getTrace grid tmplBase a.x_column a.y_column a.bubble_column
        a.z_column a.size_column sizeref a.scale_bubble
        a.marker_opacity a.marker_border_width none none true none
        (some category)).map (markScatter3d axes3D)) categories
    if truthyS a.time_column then do
      let frames ← mapO (fun year => do
        let frData ← mapO (fun category =>
          (getTrace grid (KeyTemplate.timeCat (pyStr year)) a.x_column a.y_column
            a.bubble_column a.z_column a.size_column sizeref a.scale_bubble
            a.marker_opacity a.marker_border_width none none true none
            (some category)).map (markScatter3d axes3D)) categories
        pure ({ data := frData, name := pyStr year } : Frame)) years
      let steps := if show_slider then years.map mkSliderStep else []
      pure (data, frames, steps)
    else
      pure (data, [], [])
  | none => do
    let tmpl ←
      if truthyS a.time_column then
        (pyMinV years).map (fun y => KeyTemplate.timeOnly (pyStr y))
      else
        pure KeyTemplate.noTime
    let trace ← (getTrace grid tmpl a.x_column a.y_column a.bubble_column
      a.z_column a.size_column sizeref a.scale_bubble
      a.marker_opacity a.marker_border_width color_column a.colorscale
      a.show_colorbar a.colorbar_title none).map (markScatter3d axes3D)
    if truthyS a.time_column then do
      let frames ← mapO (fun year => do
        let tr ← (getTrace grid (KeyTemplate.timeOnly (pyStr year)) a.x_column
          a.y_column a.bubble_column a.z_column a.size_column sizeref a.scale_bubble
          a.marker_opacity a.marker_border_width color_column a.colorscale
          a.show_colorbar a.colorbar_title none).map (markScatter3d axes3D)
        pure ({ data := [tr], name := pyStr year } : Frame)) years
      let steps := if show_slider then years.map mkSliderStep else []
      pure ([trace], frames, steps)
    else
      pure ([trace], [], [])

/-- Injection of the computed 2D axis ranges into the layout (source lines
266-269). -/
def apply2DRanges (figure : Figure) (xr yr : NpFloat × NpFloat) : Figure :=
  let lay := figure.layout
  let setR := fun (r : NpFloat × NpFloat) (ax : AxisSpec) => { ax with range := some r }
  let lay := { lay with xaxis := lay.xaxis.map (setR xr) }
  let lay := { lay with yaxis := lay.yaxis.map (setR yr) }
  { figure with layout := lay }

/-- Injection of the computed 3D axis ranges into `layout['scene']` (source
lines 262-265). -/
def applySceneRanges (figure : Figure) (xr yr zr : NpFloat × NpFloat) : Figure :=
  let lay := figure.layout
  let lay :=
    { lay with scene := lay.scene.map (fun sc =>
        { xaxis := { sc.xaxis with range := some xr },
          yaxis := { sc.yaxis with range := some yr },
          zaxis := { sc.zaxis with range := some zr } }) }
  { figure with layout := lay }

/-- The final slider attachment (source lines 272-273):
`figure['layout']['sliders'] = [sliders_dict]`, overwriting the provisional
dict `addSlider` stored under the same key. -/
def attachFinalSliders (fig : Figure) (sd : SlidersDict) : Figure :=
  { fig with layout :=
      { fig.layout with sliders := some (SlidersValue.finalList [sd]) } }

/-- The axis range used for one axis (source lines 249-255): the explicit
caller range verbatim when supplied, otherwise `setRange` on the column. -/
def resolveRange (log10pos : ℚ → ℚ) (dataset : Dataset) (explicit : Option (ℚ × ℚ))
    (column : String) (logscale : Bool) : Option (NpFloat × NpFloat) :=
  match explicit with
  | some r => some (.fin r.1, .fin r.2)
  | none => setRange log10pos (dataset.col column) logscale

/-- The grid-construction dispatch of `bubbleplot` (source lines 105-127):
the categorical grid builder when a categorical grouping column was derived,
the plain one otherwise. -/
def gridOf (dataset : Dataset) (a : BubbleArgs)
    (category_column color_column : Option String)
    (years? categories? : Option (List Value)) : Option (List GridEntry) :=
  match category_column with
  | some cc =>
    makeGridWithCategories dataset (columnNames a color_column) a.time_column cc
      years? categories?
  | none => makeGrid dataset (columnNames a color_column) a.time_column years?

/-- The size-reference step of `bubbleplot` (source lines 141-146): the
computed `sizeref` when a size column exists, the absent value otherwise. -/
def sizerefOpt (dataset : Dataset) (a : BubbleArgs) : Option (Option ℚ) :=
  if truthyS a.size_column then
    (computeSizeref dataset (a.size_column.getD "") a.scale_bubble).map some
  else some none

/-- The axis-range injection of `bubbleplot` (source lines 257-269): 3D
figures additionally resolve the z range and write all three under `scene`,
2D figures write `xaxis`/`yaxis`. -/
def applyRanges (log10pos : ℚ → ℚ) (dataset : Dataset) (a : BubbleArgs)
    (axes3D : Bool) (figure1 : Figure) (xr yr : NpFloat × NpFloat) :
    Option Figure :=
  if axes3D then
    (resolveRange log10pos dataset a.z_range (a.z_column.getD "") a.z_logscale).bind
      (fun zr => some (applySceneRanges figure1 xr yr zr))
  else some (apply2DRanges figure1 xr yr)

/-- Embedding of `bubbleplot` (source lines 11-275).  `log10pos` abstracts the
positive-domain float `log10` used by log-scale ranges; `none` models an
uncaught Python exception somewhere in the call. -/
def bubbleplot (log10pos : ℚ → ℚ) (dataset : Dataset) (a : BubbleArgs) :
    Option Figure := do
  let (category_column, color_column) := classifyColor dataset a.color_column
  let years? : Option (List Value) :=
    if truthyS a.time_column then some (uniq (dataset.col (a.time_column.getD "")))
    else none
  let show_slider := if truthyS a.time_column then a.show_slider else false
  let show_button := if truthyS a.time_column then a.show_button else false
  let axes3D := truthyS a.z_column
  let categories? : Option (List Value) :=
    category_column.map (fun cc => uniq (dataset.col cc))
  let showlegend :=
    match a.show_legend with
    | some b => b
    | none => category_column.isSome
  let grid ← gridOf dataset a category_column color_column years? categories?
  let slider_scale := if show_slider then years? else none
  let (figure0, sliders_dict) ←
    setLayout a.x_title a.y_title a.z_title a.title a.x_logscale a.y_logscale
      a.z_logscale axes3D show_slider slider_scale show_button showlegend
      a.width a.height
  let sizeref ← sizerefOpt dataset a
  let (data, frames, steps) ←
    buildDataFrames grid a category_column color_column (categories?.getD [])
      (years?.getD []) axes3D show_slider sizeref
  let xr ← resolveRange log10pos dataset a.x_range a.x_column a.x_logscale
  let yr ← resolveRange log10pos dataset a.y_range a.y_column a.y_logscale
  let figure1 := { figure0 with data := data, frames := frames }
  let figure2 ← applyRanges log10pos dataset a axes3D figure1 xr yr
  let figure3 :=
    if show_slider then
      attachFinalSliders figure2 { sliders_dict with steps := sliders_dict.steps ++ steps }
    else figure2
  pure figure3

/-! ### Helper lemmas -/

/-- `Option.all` spelled out as a quantifier over the successful value. -/
theorem option_all_iff {α : Type} (p : α → Bool) (o : Option α) :
    o.all p = true ↔ ∀ x, o = some x → p x = true := by
  cases o <;> simp [Option.all]

/-- Inversion of one `mapO` step on a cons cell. -/
theorem mapO_cons_eq_some {α β : Type} {f : α → Option β} {x : α} {xs : List α}
    {ys : List β} (h : mapO f (x :: xs) = some ys) :
    ∃ y ys0, f x = some y ∧ mapO f xs = some ys0 ∧ ys = y :: ys0 := by
  cases hfx : f x with
  | none => simp [mapO, hfx] at h
  | some y =>
    cases hrest : mapO f xs with
    | none => simp [mapO, hfx, hrest] at h
    | some ys0 =>
      simp [mapO, hfx, hrest] at h
      exact ⟨y, ys0, rfl, rfl, h.symm⟩

/-- A successful `mapO` yields as many results as inputs. -/
theorem mapO_some_length {α β : Type} {f : α → Option β} :
    ∀ {xs : List α} {ys : List β}, mapO f xs = some ys → ys.length = xs.length := by
  intro xs
  induction xs with
  | nil =>
    intro ys h
    simp only [mapO, Option.some.injEq] at h
    subst h; rfl
  | cons x xs ih =>
    intro ys h
    obtain ⟨y, ys0, _, hrest, rfl⟩ := mapO_cons_eq_some h
    simp [ih hrest]

/-- If every successful step satisfies a pointwise projection equation, a
successful `mapO` satisfies the corresponding `map` equation. -/
theorem mapO_some_map {α β γ : Type} {f : α → Option β} {g : β → γ} {h : α → γ}
    (hpt : ∀ x y, f x = some y → g y = h x) :
    ∀ {xs : List α} {ys : List β}, mapO f xs = some ys → ys.map g = xs.map h := by
  intro xs
  induction xs with
  | nil =>
    intro ys hm
    simp only [mapO, Option.some.injEq] at hm
    subst hm; rfl
  | cons x xs ih =>
    intro ys hm
    obtain ⟨y, ys0, hy, hrest, rfl⟩ := mapO_cons_eq_some hm
    simp [hpt x y hy, ih hrest]

/-- Every output of a successful `mapO` is the image of some input. -/
theorem mapO_some_mem {α β : Type} {f : α → Option β} :
    ∀ {xs : List α} {ys : List β}, mapO f xs = some ys →
      ∀ y ∈ ys, ∃ x ∈ xs, f x = some y := by
  intro xs
  induction xs with
  | nil =>
    intro ys h
    simp only [mapO, Option.some.injEq] at h
    subst h; simp
  | cons x xs ih =>
    intro ys h
    obtain ⟨y, ys0, hy, hrest, rfl⟩ := mapO_cons_eq_some h
    intro z hz
    rcases List.mem_cons.mp hz with hz | hz
    · exact ⟨x, List.mem_cons_self x xs, hz ▸ hy⟩
    · obtain ⟨x0, hx0, hfx0⟩ := ih hrest z hz
      exact ⟨x0, List.mem_cons_of_mem x hx0, hfx0⟩

/-- The numpy-float `min` fold over finite values is the rational `min`
fold. -/
theorem foldl_npMin_fin (x : ℚ) (xs : List ℚ) :
    (xs.map NpFloat.fin).foldl (fun acc v => if npLt v acc then v else acc)
      (NpFloat.fin x) = NpFloat.fin (xs.foldl min x) := by
  induction xs generalizing x with
  | nil => rfl
  | cons v vs ih =>
    simp only [List.map_cons, List.foldl_cons]
    have hstep :
        (if npLt (NpFloat.fin v) (NpFloat.fin x) = true then NpFloat.fin v
          else NpFloat.fin x) = NpFloat.fin (min x v) := by
      by_cases h : v < x
      · simp [npLt, h, min_eq_right (le_of_lt h)]
      · simp [npLt, h, min_eq_left (not_lt.mp h)]
    rw [hstep, ih]

/-- The numpy-float `max` fold over finite values is the rational `max`
fold. -/
theorem foldl_npMax_fin (x : ℚ) (xs : List ℚ) :
    (xs.map NpFloat.fin).foldl (fun acc v => if npLt acc v then v else acc)
      (NpFloat.fin x) = NpFloat.fin (xs.foldl max x) := by
  induction xs generalizing x with
  | nil => rfl
  | cons v vs ih =>
    simp only [List.map_cons, List.foldl_cons]
    have hstep :
        (if npLt (NpFloat.fin x) (NpFloat.fin v) = true then NpFloat.fin v
          else NpFloat.fin x) = NpFloat.fin (max x v) := by
      by_cases h : x < v
      · simp [npLt, h, max_eq_right (le_of_lt h)]
      · simp [npLt, h, max_eq_left (not_lt.mp h)]
    rw [hstep, ih]

/-- `npMinFold` on all-finite input is `qMin`. -/
theorem npMinFold_map_fin (l : List ℚ) :
    npMinFold (l.map NpFloat.fin) = (qMin l).map NpFloat.fin := by
  cases l with
  | nil => rfl
  | cons x xs => simp [npMinFold, qMin, foldl_npMin_fin]

/-- `npMaxFold` on all-finite input is `qMax`. -/
theorem npMaxFold_map_fin (l : List ℚ) :
    npMaxFold (l.map NpFloat.fin) = (qMax l).map NpFloat.fin := by
  cases l with
  | nil => rfl
  | cons x xs => simp [npMaxFold, qMax, foldl_npMax_fin]

/-! ### Claim C4: categorical color columns are reclassified -/

/-- C4: when a color column is supplied (truthy name) and its column data has
a categorical, object or boolean dtype, `classifyColor` turns it into the
categorical grouping column and clears the numeric color column; moreover for
every argument the two roles are mutually exclusive (never both set), so
numeric color mapping and categorical grouping cannot both be active in one
call. -/
theorem c4_color_reclassification (dataset : Dataset) (c : String) (hc : c ≠ "")
    (hdtype : dtypeName (dataset.col c) ∈ (["category", "object", "bool"] : List String)) :
    classifyColor dataset (some c) = (some c, none) ∧
    ∀ col : Option String,
      (classifyColor dataset col).1 = none ∨ (classifyColor dataset col).2 = none := by
  constructor
  · simp [classifyColor, truthyS, hc, hdtype]
  · intro col
    by_cases h1 : truthyS col = true
    · by_cases h2 :
        dtypeName (dataset.col (col.getD "")) ∈ (["category", "object", "bool"] : List String)
      · right; simp [classifyColor, h1, h2]
      · left; simp [classifyColor, h1, h2]
    · left; simp [classifyColor, h1]

/-- Witness for C4 at a concrete dataset whose color column holds strings
(dtype `object`). -/
theorem c4_color_reclassification_witness :
    ("country" ≠ "" ∧
      dtypeName (Dataset.col { cols := [("country", [Value.str "A"])] } "country") ∈
        (["category", "object", "bool"] : List String)) ∧
    classifyColor { cols := [("country", [Value.str "A"])] } (some "country") =
      (some "country", none) :=
  ⟨⟨by decide, by decide⟩,
    (c4_color_reclassification { cols := [("country", [Value.str "A"])] } "country"
      (by decide) (by decide)).1⟩

/-! ### Claim C6: setRange formulas and purity -/

/-- C6: on a nonempty numeric input, `setRange` returns
`[min(values)*0.7, max(values)*1.4]` with the log flag off, and
`[min(log10(values))*0.97, max(log10(values))*1.04]` with the log flag on
(when all values are positive, so that `np.log10` is finite; `log10pos`
abstracts the positive-domain float `log10`); and it is a pure function, so
repeated invocations on identical inputs coincide. -/
theorem c6_setRange_formulas (f : ℚ → ℚ) (values : List Value) (qs : List ℚ)
    (hq : mapO Value.toQ? values = some qs) (hne : qs ≠ []) :
    setRange f values false =
      some (NpFloat.fin ((qMin qs).getD 0 * (7 / 10)),
            NpFloat.fin ((qMax qs).getD 0 * (14 / 10))) ∧
    ((∀ q ∈ qs, 0 < q) →
      setRange f values true =
        some (NpFloat.fin ((qMin (qs.map f)).getD 0 * (97 / 100)),
              NpFloat.fin ((qMax (qs.map f)).getD 0 * (104 / 100)))) ∧
    (setRange f values false = setRange f values false ∧
      setRange f values true = setRange f values true) := by
  refine ⟨?_, ?_, rfl, rfl⟩
  · cases qs with
    | nil => exact absurd rfl hne
    | cons x xs => simp [setRange, hq, qMin, qMax]
  · intro hpos
    cases qs with
    | nil => exact absurd rfl hne
    | cons x xs =>
      have hx := hpos x (by simp)
      have hxlog : npLog10 f x = NpFloat.fin (f x) := by
        simp [npLog10, not_lt.mpr (le_of_lt hx), ne_of_gt hx]
      have hxslog : xs.map (npLog10 f) = (xs.map f).map NpFloat.fin := by
        rw [List.map_map]
        apply List.map_congr_left
        intro q hq2
        have h0 := hpos q (by simp [hq2])
        simp [npLog10, Function.comp, not_lt.mpr (le_of_lt h0), ne_of_gt h0]
      have hmin :
          npMinFold (npLog10 f x :: xs.map (npLog10 f)) =
            some (NpFloat.fin ((xs.map f).foldl min (f x))) := by
        rw [hxlog, hxslog]
        simp only [npMinFold]
        rw [foldl_npMin_fin]
      have hmax :
          npMaxFold (npLog10 f x :: xs.map (npLog10 f)) =
            some (NpFloat.fin ((xs.map f).foldl max (f x))) := by
        rw [hxlog, hxslog]
        simp only [npMaxFold]
        rw [foldl_npMax_fin]
      simp [setRange, hq, hmin, hmax, qMin, qMax, npMulPos]

/-- Witness for C6 at the numeric column `[2, 10]` with the identity standing
in for the abstract positive-domain `log10`: both formulas hold at this
concrete input (and the call demonstrably succeeds). -/
theorem c6_setRange_formulas_witness :
    (setRange (fun q => q) [Value.rat 2, Value.rat 10] false).isSome = true ∧
    setRange (fun q => q) [Value.rat 2, Value.rat 10] false =
      some (NpFloat.fin ((qMin [(2 : ℚ), 10]).getD 0 * (7 / 10)),
            NpFloat.fin ((qMax [(2 : ℚ), 10]).getD 0 * (14 / 10))) ∧
    setRange (fun q => q) [Value.rat 2, Value.rat 10] true =
      some (NpFloat.fin ((qMin ([(2 : ℚ), 10].map (fun q => q))).getD 0 * (97 / 100)),
            NpFloat.fin ((qMax ([(2 : ℚ), 10].map (fun q => q))).getD 0 * (104 / 100))) := by
  refine ⟨by decide, ?_, ?_⟩
  · exact (c6_setRange_formulas (fun q => q) [Value.rat 2, Value.rat 10] [(2 : ℚ), 10]
      rfl (by simp)).1
  · exact (c6_setRange_formulas (fun q => q) [Value.rat 2, Value.rat 10] [(2 : ℚ), 10]
      rfl (by simp)).2.1 (by norm_num)

/-! ### Claim C7: log-scale range computation on non-positive values -/

/-- C7 counterexample: at the concrete input `[-1]` with the log flag on, the
range computation does NOT fail with a domain error — `np.log10(-1)` is `nan`
(with only a runtime warning), the fold returns `nan`, and `setRange`
successfully returns the range `[nan, nan]`.  This refutes the claim that a
domain error is raised whenever some input value is non-positive. -/
theorem c7_counterexample :
    setRange (fun _ => 0) [Value.int (-1)] true =
      some (NpFloat.nan, NpFloat.nan) := by decide

/-- C7 as amended: log-scale range computation never raises on non-positive
numeric values.  On any nonempty numeric input containing a value below or
equal to zero it still returns a range, and the `np.log10` image contains the
non-finite sentinel `nan` (negative input) or `-inf` (zero input), which is
silently propagated — or even silently discarded by the `min`/`max` fold —
instead of surfacing as an error. -/
theorem c7_log_no_domain_error (f : ℚ → ℚ) (values : List Value) (qs : List ℚ)
    (hq : mapO Value.toQ? values = some qs) (hne : qs ≠ [])
    (hbad : ∃ q ∈ qs, q ≤ 0) :
    (setRange f values true).isSome = true ∧
    ∃ x ∈ qs.map (npLog10 f), x = NpFloat.nan ∨ x = NpFloat.neginf := by
  constructor
  · cases qs with
    | nil => exact absurd rfl hne
    | cons x xs => simp [setRange, hq, npMinFold, npMaxFold]
  · obtain ⟨q, hmem, hle⟩ := hbad
    refine ⟨npLog10 f q, List.mem_map_of_mem _ hmem, ?_⟩
    rcases lt_or_eq_of_le hle with h | h
    · left; simp [npLog10, h]
    · right; simp [npLog10, h]

/-- Witness for C7 at the concrete input `[5, -1]`: one value is negative,
yet the call succeeds (and in fact the `nan` produced for `-1` is skipped by
the fold, yielding an entirely finite range). -/
theorem c7_log_no_domain_error_witness :
    mapO Value.toQ? [Value.int 5, Value.int (-1)] = some [(5 : ℚ), -1] ∧
    (setRange (fun _ => 0) [Value.int 5, Value.int (-1)] true).isSome = true :=
  ⟨by decide,
    (c7_log_no_domain_error (fun _ => 0) [Value.int 5, Value.int (-1)] [(5 : ℚ), -1]
      (by decide) (by decide) (by decide)).1⟩

/-! ### Claim C9: width/height keys in the layout -/

/-- C9 counterexample: calling `setLayout` with `width = 0` and `height = 0`
— both explicitly provided by the caller — produces a layout WITHOUT the
`width` and `height` keys, because the source guards them with Python
truthiness (`if width:`), which treats `0` like `None`.  This refutes the
claim that the keys are present if and only if the arguments were provided. -/
theorem c9_counterexample :
    (setLayout none none none none false false false false false none false false
        (some 0) (some 0)).map
      (fun p => (p.1.layout.width, p.1.layout.height)) =
      some ((none : Option Int), (none : Option Int)) := by decide

/-- C9 as amended: the returned layout contains the `width` key exactly when
the width argument is provided AND nonzero (Python truthiness), and likewise
for `height`; when withheld the key is absent rather than zero or null. -/
theorem c9_width_height_truthiness (x_title y_title z_title title : Option String)
    (xl yl zl a3 ss : Bool) (scale : Option (List Value)) (sb sl : Bool)
    (width height : Option Int) :
    (setLayout x_title y_title z_title title xl yl zl a3 ss scale sb sl
        width height).all
      (fun p => decide (p.1.layout.width = (if truthyI width then width else none) ∧
        p.1.layout.height = (if truthyI height then height else none))) = true := by
  cases ss with
  | false =>
    cases a3 <;> cases sb <;>
      by_cases hwi : truthyI width = true <;>
      by_cases hhe : truthyI height = true <;>
      simp [setLayout, set2Daxes, set3Daxes, addButton, Layout.empty, Option.all,
        hwi, hhe]
  | true =>
    cases scale with
    | none => simp [setLayout, addSlider, Option.all]
    | some vs =>
      cases hmv : pyMinV vs with
      | none => simp [setLayout, addSlider, hmv, Option.all]
      | some iv =>
        cases a3 <;> cases sb <;>
          by_cases hwi : truthyI width = true <;>
          by_cases hhe : truthyI height = true <;>
          simp [setLayout, addSlider, hmv, set2Daxes, set3Daxes, addButton,
            Layout.empty, Option.all, hwi, hhe]

/-! ### Inversion lemmas for the orchestrator -/

/-- Fields of a successful `setLayout` result: the `showlegend` key always
holds the passed flag, `updatemenus` is absent without the button,
`sliders` is absent without the slider, and the trace/frame lists start
empty. -/
theorem setLayout_fields (x_title y_title z_title title : Option String)
    (xl yl zl a3 ss : Bool) (scale : Option (List Value)) (sb sl : Bool)
    (width height : Option Int) (pr : Figure × SlidersDict)
    (h : setLayout x_title y_title z_title title xl yl zl a3 ss scale sb sl
      width height = some pr) :
    pr.1.layout.showlegend = some sl ∧
    (sb = false → pr.1.layout.updatemenus = none) ∧
    (ss = false → pr.1.layout.sliders = none) ∧
    pr.1.data = [] ∧ pr.1.frames = [] := by
  cases ss with
  | false =>
    cases a3 <;> cases sb <;>
      by_cases hwi : truthyI width = true <;>
      by_cases hhe : truthyI height = true <;>
      (simp [setLayout, set2Daxes, set3Daxes, addButton, Layout.empty, hwi, hhe] at h ;
       simp [← h])
  | true =>
    cases scale with
    | none => simp [setLayout, addSlider] at h
    | some vs =>
      cases hmv : pyMinV vs with
      | none => simp [setLayout, addSlider, hmv] at h
      | some iv =>
        cases a3 <;> cases sb <;>
          by_cases hwi : truthyI width = true <;>
          by_cases hhe : truthyI height = true <;>
          (simp [setLayout, addSlider, hmv, set2Daxes, set3Daxes, addButton,
             Layout.empty, hwi, hhe] at h ;
           simp [← h])

/-- `apply2DRanges` only touches the axis specs: traces, frames and the other
layout keys are unchanged. -/
theorem apply2DRanges_proj (fig : Figure) (xr yr : NpFloat × NpFloat) :
    (apply2DRanges fig xr yr).data = fig.data ∧
    (apply2DRanges fig xr yr).frames = fig.frames ∧
    (apply2DRanges fig xr yr).layout.showlegend = fig.layout.showlegend ∧
    (apply2DRanges fig xr yr).layout.sliders = fig.layout.sliders ∧
    (apply2DRanges fig xr yr).layout.updatemenus = fig.layout.updatemenus :=
  ⟨rfl, rfl, rfl, rfl, rfl⟩

/-- `applySceneRanges` only touches the scene: traces, frames and the other
layout keys are unchanged. -/
theorem applySceneRanges_proj (fig : Figure) (xr yr zr : NpFloat × NpFloat) :
    (applySceneRanges fig xr yr zr).data = fig.data ∧
    (applySceneRanges fig xr yr zr).frames = fig.frames ∧
    (applySceneRanges fig xr yr zr).layout.showlegend = fig.layout.showlegend ∧
    (applySceneRanges fig xr yr zr).layout.sliders = fig.layout.sliders ∧
    (applySceneRanges fig xr yr zr).layout.updatemenus = fig.layout.updatemenus :=
  ⟨rfl, rfl, rfl, rfl, rfl⟩

/-- Inversion of a bind (`>>=`) over `Option` hitting `some`. -/
theorem bindO_eq_some {α β : Type} {o : Option α} {f : α → Option β} {b : β} :
    (o >>= f) = some b ↔ ∃ a, o = some a ∧ f a = some b := by
  cases o <;> simp

/-- Decomposition of a successful `bubbleplot` call into its stages, naming
every intermediate result the claims below inspect. -/
theorem bubbleplot_inv {f : ℚ → ℚ} {dataset : Dataset} {a : BubbleArgs} {fig : Figure}
    (h : bubbleplot f dataset a = some fig) :
    ∃ (grid : List GridEntry) (pr : Figure × SlidersDict) (sr : Option ℚ)
      (dfs : List Trace × List Frame × List SliderStep)
      (xr yr : NpFloat × NpFloat) (fig2 : Figure),
      gridOf dataset a (classifyColor dataset a.color_column).1
        (classifyColor dataset a.color_column).2
        (if truthyS a.time_column then
          some (uniq (dataset.col (a.time_column.getD ""))) else none)
        ((classifyColor dataset a.color_column).1.map
          (fun cc => uniq (dataset.col cc))) = some grid ∧
      setLayout a.x_title a.y_title a.z_title a.title a.x_logscale a.y_logscale
        a.z_logscale (truthyS a.z_column)
        (if truthyS a.time_column then a.show_slider else false)
        (if (if truthyS a.time_column then a.show_slider else false) = true then
          (if truthyS a.time_column then
            some (uniq (dataset.col (a.time_column.getD ""))) else none)
          else none)
        (if truthyS a.time_column then a.show_button else false)
        (match a.show_legend with
          | some b => b
          | none => (classifyColor dataset a.color_column).1.isSome)
        a.width a.height = some pr ∧
      sizerefOpt dataset a = some sr ∧
      buildDataFrames grid a (classifyColor dataset a.color_column).1
        (classifyColor dataset a.color_column).2
        (((classifyColor dataset a.color_column).1.map
          (fun cc => uniq (dataset.col cc))).getD [])
        ((if truthyS a.time_column then
          some (uniq (dataset.col (a.time_column.getD ""))) else none).getD [])
        (truthyS a.z_column)
        (if truthyS a.time_column then a.show_slider else false) sr = some dfs ∧
      resolveRange f dataset a.x_range a.x_column a.x_logscale = some xr ∧
      resolveRange f dataset a.y_range a.y_column a.y_logscale = some yr ∧
      applyRanges f dataset a (truthyS a.z_column)
        { pr.1 with data := dfs.1, frames := dfs.2.1 } xr yr = some fig2 ∧
      fig = (if (if truthyS a.time_column then a.show_slider else false) = true then
        attachFinalSliders fig2 { pr.2 with steps := pr.2.steps ++ dfs.2.2 }
        else fig2) := by
  rcases hcls : classifyColor dataset a.color_column with ⟨cat, col⟩
  simp only [bubbleplot, hcls] at h
  simp only [hcls]
  rw [bindO_eq_some] at h
  obtain ⟨grid, hgrid, h⟩ := h
  rw [bindO_eq_some] at h
  obtain ⟨pr, hpr, h⟩ := h
  rw [bindO_eq_some] at h
  obtain ⟨sr, hsr, h⟩ := h
  rw [bindO_eq_some] at h
  obtain ⟨dfs, hdfs, h⟩ := h
  rw [bindO_eq_some] at h
  obtain ⟨xr, hxr, h⟩ := h
  rw [bindO_eq_some] at h
  obtain ⟨yr, hyr, h⟩ := h
  rw [bindO_eq_some] at h
  obtain ⟨fig2, hfig2, h⟩ := h
  simp only [Option.pure_def, Option.some.injEq] at h
  exact ⟨grid, pr, sr, dfs, xr, yr, fig2, hgrid, hpr, hsr, hdfs, hxr, hyr,
    hfig2, h.symm⟩

/-- `applyRanges` only rewrites axis ranges: traces, frames and the
non-axis layout keys pass through. -/
theorem applyRanges_proj {f : ℚ → ℚ} {dataset : Dataset} {a : BubbleArgs}
    {x3 : Bool} {fig1 fig2 : Figure} {xr yr : NpFloat × NpFloat}
    (h : applyRanges f dataset a x3 fig1 xr yr = some fig2) :
    fig2.data = fig1.data ∧ fig2.frames = fig1.frames ∧
    fig2.layout.showlegend = fig1.layout.showlegend ∧
    fig2.layout.sliders = fig1.layout.sliders ∧
    fig2.layout.updatemenus = fig1.layout.updatemenus := by
  cases x3 with
  | false =>
    simp only [applyRanges, Bool.false_eq_true, if_false, Option.some.injEq] at h
    subst h
    exact apply2DRanges_proj fig1 xr yr
  | true =>
    simp only [applyRanges, if_true] at h
    rw [Option.bind_eq_some] at h
    obtain ⟨zr, _, h⟩ := h
    simp only [Option.some.injEq] at h
    subst h
    exact applySceneRanges_proj fig1 xr yr zr

/-- `attachFinalSliders` only rewrites the `sliders` key. -/
theorem attachFinalSliders_proj (fig : Figure) (sd : SlidersDict) :
    (attachFinalSliders fig sd).data = fig.data ∧
    (attachFinalSliders fig sd).frames = fig.frames ∧
    (attachFinalSliders fig sd).layout.showlegend = fig.layout.showlegend ∧
    (attachFinalSliders fig sd).layout.updatemenus = fig.layout.updatemenus :=
  ⟨rfl, rfl, rfl, rfl⟩

/-- A falsy color argument is never reclassified: no categorical grouping
column arises and the color column passes through. -/
theorem classifyColor_falsy {dataset : Dataset} {c : Option String}
    (h : truthyS c = false) : classifyColor dataset c = (none, c) := by
  simp [classifyColor, h]

/-- Without a time column, the plain branch of `buildDataFrames` yields one
base trace, no frames and no slider steps. -/
theorem buildDataFrames_plain_notime {grid : List GridEntry} {a : BubbleArgs}
    {col : Option String} {cats years : List Value} {x3 ss : Bool} {sr : Option ℚ}
    {dfs : List Trace × List Frame × List SliderStep}
    (htime : truthyS a.time_column = false)
    (h : buildDataFrames grid a none col cats years x3 ss sr = some dfs) :
    ∃ tr, dfs = ([tr], [], []) := by
  simp only [buildDataFrames, htime, Bool.false_eq_true, if_false] at h
  rw [bindO_eq_some] at h
  obtain ⟨tmpl, htmpl, h⟩ := h
  rw [bindO_eq_some] at h
  obtain ⟨tr, htr, h⟩ := h
  simp only [Option.pure_def, Option.some.injEq] at h
  exact ⟨tr, h.symm⟩

/-- With a time column, the frame list built by `buildDataFrames` has one
frame per year, named `str(year)`, in iteration order. -/
theorem buildDataFrames_frames {grid : List GridEntry} {a : BubbleArgs}
    {cat col : Option String} {cats years : List Value} {x3 ss : Bool}
    {sr : Option ℚ} {dfs : List Trace × List Frame × List SliderStep}
    (htime : truthyS a.time_column = true)
    (h : buildDataFrames grid a cat col cats years x3 ss sr = some dfs) :
    dfs.2.1.map Frame.name = years.map pyStr ∧ dfs.2.1.length = years.length := by
  cases cat with
  | some cc =>
    simp only [buildDataFrames, htime, if_true] at h
    rw [bindO_eq_some] at h
    obtain ⟨year0, hyear0, h⟩ := h
    rw [bindO_eq_some] at h
    obtain ⟨tmpl, htmpl, h⟩ := h
    rw [bindO_eq_some] at h
    obtain ⟨data, hdata, h⟩ := h
    rw [bindO_eq_some] at h
    obtain ⟨frames, hframes, h⟩ := h
    simp only [Option.pure_def, Option.some.injEq] at h
    subst h
    have hpt : ∀ (y : Value) (fr : Frame),
        (do
          let frData ← mapO (fun category =>
            (getTrace grid (KeyTemplate.timeCat (pyStr y)) a.x_column a.y_column
              a.bubble_column a.z_column a.size_column sr a.scale_bubble
              a.marker_opacity a.marker_border_width none none true none
              (some category)).map (markScatter3d x3)) cats
          pure ({ data := frData, name := pyStr y } : Frame)) = some fr →
        fr.name = pyStr y := by
      intro y fr hy
      rw [bindO_eq_some] at hy
      obtain ⟨frData, _, hy⟩ := hy
      simp only [Option.pure_def, Option.some.injEq] at hy
      simp [← hy]
    exact ⟨mapO_some_map hpt hframes, mapO_some_length hframes⟩
  | none =>
    simp only [buildDataFrames, htime, if_true] at h
    rw [bindO_eq_some] at h
    obtain ⟨tmpl, htmpl, h⟩ := h
    rw [bindO_eq_some] at h
    obtain ⟨tr, htr, h⟩ := h
    rw [bindO_eq_some] at h
    obtain ⟨frames, hframes, h⟩ := h
    simp only [Option.pure_def, Option.some.injEq] at h
    subst h
    have hpt : ∀ (y : Value) (fr : Frame),
        (do
          let tr2 ← (getTrace grid (KeyTemplate.timeOnly (pyStr y)) a.x_column
            a.y_column a.bubble_column a.z_column a.size_column sr a.scale_bubble
            a.marker_opacity a.marker_border_width col a.colorscale
            a.show_colorbar a.colorbar_title none).map (markScatter3d x3)
          pure ({ data := [tr2], name := pyStr y } : Frame)) = some fr →
        fr.name = pyStr y := by
      intro y fr hy
      rw [bindO_eq_some] at hy
      obtain ⟨tr2, _, hy⟩ := hy
      simp only [Option.pure_def, Option.some.injEq] at hy
      simp [← hy]
    exact ⟨mapO_some_map hpt hframes, mapO_some_length hframes⟩

/-- In the categorical branch of `buildDataFrames`, the base trace list has
one trace per category, and so does every frame. -/
theorem buildDataFrames_cat_lengths {grid : List GridEntry} {a : BubbleArgs}
    {cc : String} {col : Option String} {cats years : List Value} {x3 ss : Bool}
    {sr : Option ℚ} {dfs : List Trace × List Frame × List SliderStep}
    (h : buildDataFrames grid a (some cc) col cats years x3 ss sr = some dfs) :
    dfs.1.length = cats.length ∧ ∀ fr ∈ dfs.2.1, fr.data.length = cats.length := by
  cases htime : truthyS a.time_column with
  | false =>
    simp only [buildDataFrames, htime, Bool.false_eq_true, if_false] at h
    rw [bindO_eq_some] at h
    obtain ⟨tmpl, htmpl, h⟩ := h
    rw [bindO_eq_some] at h
    obtain ⟨data, hdata, h⟩ := h
    simp only [Option.pure_def, Option.some.injEq] at h
    subst h
    exact ⟨mapO_some_length hdata, by simp⟩
  | true =>
    simp only [buildDataFrames, htime, if_true] at h
    rw [bindO_eq_some] at h
    obtain ⟨year0, hyear0, h⟩ := h
    rw [bindO_eq_some] at h
    obtain ⟨tmpl, htmpl, h⟩ := h
    rw [bindO_eq_some] at h
    obtain ⟨data, hdata, h⟩ := h
    rw [bindO_eq_some] at h
    obtain ⟨frames, hframes, h⟩ := h
    simp only [Option.pure_def, Option.some.injEq] at h
    subst h
    refine ⟨mapO_some_length hdata, ?_⟩
    intro fr hfr
    obtain ⟨y, _, hy⟩ := mapO_some_mem hframes fr hfr
    rw [bindO_eq_some] at hy
    obtain ⟨frData, hfrData, hy⟩ := hy
    simp only [Option.pure_def, Option.some.injEq] at hy
    subst hy
    exact mapO_some_length hfrData

/-! ### Claim C10: implicit legend default -/

/-- C10: whatever figure `bubbleplot` returns, its layout `showlegend` key is
the explicitly supplied `show_legend` value verbatim, and when `show_legend`
is left `None` it defaults to true exactly when a categorical grouping column
was derived (by the color reclassification) and false otherwise. -/
theorem c10_showlegend_default (f : ℚ → ℚ) (dataset : Dataset) (a : BubbleArgs) :
    (bubbleplot f dataset a).all
      (fun fig => decide (fig.layout.showlegend =
        some (match a.show_legend with
          | some b => b
          | none => (classifyColor dataset a.color_column).1.isSome))) = true := by
  rw [option_all_iff]
  intro fig hfig
  rw [decide_eq_true_eq]
  obtain ⟨grid, pr, sr, dfs, xr, yr, fig2, hgrid, hpr, hsr, hdfs, hxr, hyr, hfig2,
    hfigeq⟩ := bubbleplot_inv hfig
  have hsl := (setLayout_fields _ _ _ _ _ _ _ _ _ _ _ _ _ _ _ hpr).1
  have hproj := (applyRanges_proj hfig2).2.2.1
  subst hfigeq
  cases hss : (if truthyS a.time_column = true then a.show_slider else false) <;>
    simp only [hss, Bool.false_eq_true, if_false, if_true]
  · rw [hproj]; exact hsl
  · rw [(attachFinalSliders_proj fig2 _).2.2.1, hproj]; exact hsl

/-! ### Claim C8: minimal call shape -/

/-- C8: with no time, size or color column (hence no derived category
column), any figure `bubbleplot` returns has exactly one base trace, an empty
frame list, and neither a `sliders` nor an `updatemenus` entry in its layout
— regardless of the caller's `show_slider`/`show_button` flags, which the
missing time column forces off. -/
theorem c8_minimal_call_shape (f : ℚ → ℚ) (dataset : Dataset) (a : BubbleArgs)
    (htime : truthyS a.time_column = false)
    (hsize : truthyS a.size_column = false)
    (hcolor : truthyS a.color_column = false) :
    (bubbleplot f dataset a).all
      (fun fig => decide (fig.data.length = 1 ∧ fig.frames = [] ∧
        fig.layout.sliders = none ∧ fig.layout.updatemenus = none)) = true := by
  rw [option_all_iff]
  intro fig hfig
  rw [decide_eq_true_eq]
  obtain ⟨grid, pr, sr, dfs, xr, yr, fig2, hgrid, hpr, hsr, hdfs, hxr, hyr, hfig2,
    hfigeq⟩ := bubbleplot_inv hfig
  rw [classifyColor_falsy hcolor] at hpr hdfs
  simp only [htime, Bool.false_eq_true, if_false] at hpr hdfs hfigeq
  obtain ⟨tr, htr⟩ := buildDataFrames_plain_notime htime hdfs
  have hlay := setLayout_fields _ _ _ _ _ _ _ _ _ _ _ _ _ _ _ hpr
  have hproj := applyRanges_proj hfig2
  subst hfigeq
  refine ⟨?_, ?_, ?_, ?_⟩
  · rw [hproj.1, htr]; rfl
  · rw [hproj.2.1, htr]
  · rw [hproj.2.2.2.1]
    exact hlay.2.2.1 rfl
  · rw [hproj.2.2.2.2]
    exact hlay.2.1 rfl

/-- Witness for C8: a three-column dataset (x, y, bubble label only) with the
caller requesting both the slider and the button; the call succeeds and the
returned figure has one trace, no frames, no slider and no button. -/
theorem c8_minimal_call_shape_witness :
    (bubbleplot (fun q => q)
        { cols := [("x", [Value.int 1, Value.int 2]),
                   ("y", [Value.int 3, Value.int 4]),
                   ("label", [Value.str "a", Value.str "b"])] }
        (defaultArgs "x" "y" "label")).all
      (fun fig => decide (fig.data.length = 1 ∧ fig.frames = [] ∧
        fig.layout.sliders = none ∧ fig.layout.updatemenus = none)) = true ∧
    (bubbleplot (fun q => q)
        { cols := [("x", [Value.int 1, Value.int 2]),
                   ("y", [Value.int 3, Value.int 4]),
                   ("label", [Value.str "a", Value.str "b"])] }
        (defaultArgs "x" "y" "label")).isSome = true :=
  ⟨c8_minimal_call_shape (fun q => q)
      { cols := [("x", [Value.int 1, Value.int 2]),
                 ("y", [Value.int 3, Value.int 4]),
                 ("label", [Value.str "a", Value.str "b"])] }
      (defaultArgs "x" "y" "label") rfl rfl rfl,
    by decide⟩

/-! ### Claim C2: one frame per time value, named and ordered -/

/-- C2: with a time column supplied, any figure `bubbleplot` returns has
exactly one frame per distinct time value (k frames for k unique values), and
the i-th frame name is the stringified i-th distinct time value in first-seen
order of the time column. -/
theorem c2_frames_per_time (f : ℚ → ℚ) (dataset : Dataset) (a : BubbleArgs)
    (htime : truthyS a.time_column = true) :
    (bubbleplot f dataset a).all
      (fun fig => decide
        (fig.frames.length = (uniq (dataset.col (a.time_column.getD ""))).length ∧
          fig.frames.map Frame.name =
            (uniq (dataset.col (a.time_column.getD ""))).map pyStr)) = true := by
  rw [option_all_iff]
  intro fig hfig
  rw [decide_eq_true_eq]
  obtain ⟨grid, pr, sr, dfs, xr, yr, fig2, hgrid, hpr, hsr, hdfs, hxr, hyr, hfig2,
    hfigeq⟩ := bubbleplot_inv hfig
  simp only [htime, if_true, Option.getD_some] at hdfs hfigeq
  have hfr := buildDataFrames_frames htime hdfs
  have hframes : fig.frames = dfs.2.1 := by
    subst hfigeq
    cases hss : a.show_slider <;> simp only [hss, Bool.false_eq_true, if_false, if_true]
    · exact (applyRanges_proj hfig2).2.1
    · rw [(attachFinalSliders_proj fig2 _).2.1]
      exact (applyRanges_proj hfig2).2.1
  rw [hframes]
  exact ⟨by rw [← hfr.2, ← List.length_map dfs.2.1 Frame.name, hfr.1, List.length_map],
    hfr.1⟩

/-- Witness for C2 at the worked example of the specification: columns
`year = [2000, 2000, 2001]`, `gdp = [1, 2, 3]`, `pop = [10, 20, 30]`,
`country = [A, B, A]` give two frames named `2000` and `2001` (and the call
succeeds). -/
theorem c2_frames_per_time_witness :
    (bubbleplot (fun q => q)
        { cols := [("year", [Value.int 2000, Value.int 2000, Value.int 2001]),
                   ("gdp", [Value.int 1, Value.int 2, Value.int 3]),
                   ("pop", [Value.int 10, Value.int 20, Value.int 30]),
                   ("country", [Value.str "A", Value.str "B", Value.str "A"])] }
        { defaultArgs "gdp" "pop" "country" with time_column := some "year" }).all
      (fun fig => decide
        (fig.frames.length =
          (uniq (Dataset.col
            { cols := [("year", [Value.int 2000, Value.int 2000, Value.int 2001]),
                       ("gdp", [Value.int 1, Value.int 2, Value.int 3]),
                       ("pop", [Value.int 10, Value.int 20, Value.int 30]),
                       ("country", [Value.str "A", Value.str "B", Value.str "A"])] }
            ((some "year").getD ""))).length ∧
          fig.frames.map Frame.name =
            (uniq (Dataset.col
              { cols := [("year", [Value.int 2000, Value.int 2000, Value.int 2001]),
                         ("gdp", [Value.int 1, Value.int 2, Value.int 3]),
                         ("pop", [Value.int 10, Value.int 20, Value.int 30]),
                         ("country", [Value.str "A", Value.str "B", Value.str "A"])] }
              ((some "year").getD ""))).map pyStr)) = true ∧
    (bubbleplot (fun q => q)
        { cols := [("year", [Value.int 2000, Value.int 2000, Value.int 2001]),
                   ("gdp", [Value.int 1, Value.int 2, Value.int 3]),
                   ("pop", [Value.int 10, Value.int 20, Value.int 30]),
                   ("country", [Value.str "A", Value.str "B", Value.str "A"])] }
        { defaultArgs "gdp" "pop" "country" with
            time_column := some "year" }).map (fun fig => fig.frames.map Frame.name) =
      some ["2000", "2001"] :=
  ⟨c2_frames_per_time (fun q => q)
      { cols := [("year", [Value.int 2000, Value.int 2000, Value.int 2001]),
                 ("gdp", [Value.int 1, Value.int 2, Value.int 3]),
                 ("pop", [Value.int 10, Value.int 20, Value.int 30]),
                 ("country", [Value.str "A", Value.str "B", Value.str "A"])] }
      { defaultArgs "gdp" "pop" "country" with time_column := some "year" } rfl,
    by decide⟩

/-! ### Claim C3: one trace per category in the base data and in each frame -/

/-- C3: with a time column and a derived categorical grouping column having m
distinct categories, any figure `bubbleplot` returns has m base traces and m
traces in every frame. -/
theorem c3_traces_per_category (f : ℚ → ℚ) (dataset : Dataset) (a : BubbleArgs)
    (cc : String) (htime : truthyS a.time_column = true)
    (hcat : (classifyColor dataset a.color_column).1 = some cc) :
    (bubbleplot f dataset a).all
      (fun fig => decide
        (fig.data.length = (uniq (dataset.col cc)).length ∧
          ∀ fr ∈ fig.frames, fr.data.length = (uniq (dataset.col cc)).length)) = true := by
  rw [option_all_iff]
  intro fig hfig
  rw [decide_eq_true_eq]
  obtain ⟨grid, pr, sr, dfs, xr, yr, fig2, hgrid, hpr, hsr, hdfs, hxr, hyr, hfig2,
    hfigeq⟩ := bubbleplot_inv hfig
  simp only [hcat, Option.map_some', Option.getD_some] at hdfs
  have hlen := buildDataFrames_cat_lengths hdfs
  have hdata : fig.data = dfs.1 ∧ fig.frames = dfs.2.1 := by
    subst hfigeq
    cases hss : (if truthyS a.time_column = true then a.show_slider else false) <;>
      simp only [hss, Bool.false_eq_true, if_false, if_true]
    · exact ⟨(applyRanges_proj hfig2).1, (applyRanges_proj hfig2).2.1⟩
    · rw [(attachFinalSliders_proj fig2 _).1, (attachFinalSliders_proj fig2 _).2.1]
      exact ⟨(applyRanges_proj hfig2).1, (applyRanges_proj hfig2).2.1⟩
  rw [hdata.1, hdata.2]
  exact ⟨hlen.1, hlen.2⟩

/-- Witness for C3: four rows over two years and two categories (every
(year, category) pair populated), with the categorical grouping derived from
a string-valued color column; base data and both frames have two traces. -/
theorem c3_traces_per_category_witness :
    (bubbleplot (fun q => q)
        { cols := [("year", [Value.int 2000, Value.int 2000, Value.int 2001,
                             Value.int 2001]),
                   ("x", [Value.int 1, Value.int 2, Value.int 3, Value.int 4]),
                   ("y", [Value.int 5, Value.int 6, Value.int 7, Value.int 8]),
                   ("label", [Value.str "p", Value.str "q", Value.str "r",
                              Value.str "s"]),
                   ("country", [Value.str "A", Value.str "B", Value.str "A",
                                Value.str "B"])] }
        { defaultArgs "x" "y" "label" with
            time_column := some "year", color_column := some "country" }).all
      (fun fig => decide
        (fig.data.length =
          (uniq (Dataset.col
            { cols := [("year", [Value.int 2000, Value.int 2000, Value.int 2001,
                                 Value.int 2001]),
                       ("x", [Value.int 1, Value.int 2, Value.int 3, Value.int 4]),
                       ("y", [Value.int 5, Value.int 6, Value.int 7, Value.int 8]),
                       ("label", [Value.str "p", Value.str "q", Value.str "r",
                                  Value.str "s"]),
                       ("country", [Value.str "A", Value.str "B", Value.str "A",
                                    Value.str "B"])] } "country")).length ∧
          ∀ fr ∈ fig.frames, fr.data.length =
            (uniq (Dataset.col
              { cols := [("year", [Value.int 2000, Value.int 2000, Value.int 2001,
                                   Value.int 2001]),
                         ("x", [Value.int 1, Value.int 2, Value.int 3, Value.int 4]),
                         ("y", [Value.int 5, Value.int 6, Value.int 7, Value.int 8]),
                         ("label", [Value.str "p", Value.str "q", Value.str "r",
                                    Value.str "s"]),
                         ("country", [Value.str "A", Value.str "B", Value.str "A",
                                      Value.str "B"])] } "country")).length)) = true ∧
    (bubbleplot (fun q => q)
        { cols := [("year", [Value.int 2000, Value.int 2000, Value.int 2001,
                             Value.int 2001]),
                   ("x", [Value.int 1, Value.int 2, Value.int 3, Value.int 4]),
                   ("y", [Value.int 5, Value.int 6, Value.int 7, Value.int 8]),
                   ("label", [Value.str "p", Value.str "q", Value.str "r",
                              Value.str "s"]),
                   ("country", [Value.str "A", Value.str "B", Value.str "A",
                                Value.str "B"])] }
        { defaultArgs "x" "y" "label" with
            time_column := some "year", color_column := some "country" }).map
      (fun fig => (fig.data.length, fig.frames.map (fun fr => fr.data.length))) =
      some (2, [2, 2]) :=
  ⟨c3_traces_per_category (fun q => q)
      { cols := [("year", [Value.int 2000, Value.int 2000, Value.int 2001,
                           Value.int 2001]),
                 ("x", [Value.int 1, Value.int 2, Value.int 3, Value.int 4]),
                 ("y", [Value.int 5, Value.int 6, Value.int 7, Value.int 8]),
                 ("label", [Value.str "p", Value.str "q", Value.str "r",
                            Value.str "s"]),
                 ("country", [Value.str "A", Value.str "B", Value.str "A",
                              Value.str "B"])] }
      { defaultArgs "x" "y" "label" with
          time_column := some "year", color_column := some "country" }
      "country" rfl (by decide),
    by decide⟩

/-! ### Claim C5: the size reference formula -/

/-- `colorMarker` never touches the `sizeref` field. -/
theorem colorMarker_sizeref {grid : List GridEntry} {tmpl : KeyTemplate}
    {colc cs cbt : Option String} {m m3 : Marker}
    (h : colorMarker grid tmpl colc cs cbt m = some m3) :
    m3.sizeref = m.sizeref := by
  cases hc : truthyS colc with
  | false =>
    simp only [colorMarker, hc, Bool.false_eq_true, if_false, Option.some.injEq] at h
    simp [← h]
  | true =>
    simp only [colorMarker, hc, if_true] at h
    rw [bindO_eq_some] at h
    obtain ⟨k, _, h⟩ := h
    rw [bindO_eq_some] at h
    obtain ⟨cvs, _, h⟩ := h
    simp only [Option.pure_def, Option.some.injEq] at h
    simp [← h]

/-- When a size column is present, any trace `getTrace` produces stores the
passed `sizeref` under `marker.sizeref`. -/
theorem getTrace_sizeref {grid : List GridEntry} {tmpl : KeyTemplate}
    {xc yc bc : String} {zc sc : Option String} {sr : Option ℚ} {sb : ℚ}
    {mo mb : Option ℚ} {colc cs : Option String} {scb : Bool}
    {cbt : Option String} {cat : Option Value} {tr : Trace}
    (hsz : truthyS sc = true)
    (h : getTrace grid tmpl xc yc bc zc sc sr sb mo mb colc cs scb cbt cat =
      some tr) :
    tr.marker.sizeref = sr := by
  simp only [getTrace] at h
  rw [bindO_eq_some] at h
  obtain ⟨xs, _, h⟩ := h
  rw [bindO_eq_some] at h
  obtain ⟨ys, _, h⟩ := h
  rw [bindO_eq_some] at h
  obtain ⟨texts, _, h⟩ := h
  rw [bindO_eq_some] at h
  obtain ⟨zs, _, h⟩ := h
  rw [bindO_eq_some] at h
  obtain ⟨marker0, hm0, h⟩ := h
  rw [bindO_eq_some] at h
  obtain ⟨marker3, hm3, h⟩ := h
  simp only [Option.pure_def, Option.some.injEq] at h
  have h0 : marker0.sizeref = sr := by
    simp only [baseMarker, hsz, if_true] at hm0
    rw [Option.map_eq_some'] at hm0
    obtain ⟨svs, _, hm0⟩ := hm0
    simp [← hm0]
  have h3 := colorMarker_sizeref hm3
  have h12 :
      (if truthyQ mb = true then
        { (if truthyQ mo = true then { marker0 with opacity := mo } else marker0) with
            lineWidth := mb }
        else (if truthyQ mo = true then { marker0 with opacity := mo }
          else marker0)).sizeref = marker0.sizeref := by
    cases truthyQ mo <;> cases truthyQ mb <;> rfl
  rw [← h, ← h0]
  rw [h3]
  exact h12

/-- Every base trace built by `buildDataFrames` carries the passed `sizeref`
when a size column is present. -/
theorem buildDataFrames_data_sizeref {grid : List GridEntry} {a : BubbleArgs}
    {cat col : Option String} {cats years : List Value} {x3 ss : Bool}
    {sr : Option ℚ} {dfs : List Trace × List Frame × List SliderStep}
    (hsz : truthyS a.size_column = true)
    (h : buildDataFrames grid a cat col cats years x3 ss sr = some dfs) :
    ∀ tr ∈ dfs.1, tr.marker.sizeref = sr := by
  have hmark : ∀ (tr0 tr : Trace), markScatter3d x3 tr0 = tr →
      tr.marker = tr0.marker := by
    intro tr0 tr hm
    cases x3 <;> simp [markScatter3d] at hm <;> simp [← hm]
  cases cat with
  | some cc =>
    cases htime : truthyS a.time_column with
    | true =>
      simp only [buildDataFrames, htime, if_true] at h
      rw [bindO_eq_some] at h
      obtain ⟨year0, _, h⟩ := h
      rw [bindO_eq_some] at h
      obtain ⟨tmpl, _, h⟩ := h
      rw [bindO_eq_some] at h
      obtain ⟨data, hdata, h⟩ := h
      rw [bindO_eq_some] at h
      obtain ⟨frames, _, h⟩ := h
      simp only [Option.pure_def, Option.some.injEq] at h
      subst h
      intro tr htr
      obtain ⟨cat0, _, hcat0⟩ := mapO_some_mem hdata tr htr
      rw [Option.map_eq_some'] at hcat0
      obtain ⟨tr0, htr0, hmm⟩ := hcat0
      rw [hmark tr0 tr hmm]
      exact getTrace_sizeref hsz htr0
    | false =>
      simp only [buildDataFrames, htime, Bool.false_eq_true, if_false] at h
      rw [bindO_eq_some] at h
      obtain ⟨tmpl, _, h⟩ := h
      rw [bindO_eq_some] at h
      obtain ⟨data, hdata, h⟩ := h
      simp only [Option.pure_def, Option.some.injEq] at h
      subst h
      intro tr htr
      obtain ⟨cat0, _, hcat0⟩ := mapO_some_mem hdata tr htr
      rw [Option.map_eq_some'] at hcat0
      obtain ⟨tr0, htr0, hmm⟩ := hcat0
      rw [hmark tr0 tr hmm]
      exact getTrace_sizeref hsz htr0
  | none =>
    cases htime : truthyS a.time_column with
    | true =>
      simp only [buildDataFrames, htime, if_true] at h
      rw [bindO_eq_some] at h
      obtain ⟨tmpl, _, h⟩ := h
      rw [bindO_eq_some] at h
      obtain ⟨tr1, htr1, h⟩ := h
      rw [bindO_eq_some] at h
      obtain ⟨frames, _, h⟩ := h
      simp only [Option.pure_def, Option.some.injEq] at h
      subst h
      intro tr htr
      rw [List.mem_singleton] at htr
      subst htr
      rw [Option.map_eq_some'] at htr1
      obtain ⟨tr0, htr0, hmm⟩ := htr1
      rw [hmark tr0 tr hmm]
      exact getTrace_sizeref hsz htr0
    | false =>
      simp only [buildDataFrames, htime, Bool.false_eq_true, if_false] at h
      rw [bindO_eq_some] at h
      obtain ⟨tmpl, _, h⟩ := h
      rw [bindO_eq_some] at h
      obtain ⟨tr1, htr1, h⟩ := h
      simp only [Option.pure_def, Option.some.injEq] at h
      subst h
      intro tr htr
      rw [List.mem_singleton] at htr
      subst htr
      rw [Option.map_eq_some'] at htr1
      obtain ⟨tr0, htr0, hmm⟩ := htr1
      rw [hmark tr0 tr hmm]
      exact getTrace_sizeref hsz htr0

/-- C5: with a size column whose values have maximum `m`, the size reference
is `2 * m / (scale_bubble * 80 ** 2)` — both as the value `computeSizeref`
produces and as the `marker.sizeref` stored in every base trace of any
returned figure. -/
theorem c5_sizeref_formula (f : ℚ → ℚ) (dataset : Dataset) (a : BubbleArgs)
    (qs : List ℚ) (m : ℚ) (hsz : truthyS a.size_column = true)
    (hqs : mapO Value.toQ? (dataset.col (a.size_column.getD "")) = some qs)
    (hm : qMax qs = some m) :
    computeSizeref dataset (a.size_column.getD "") a.scale_bubble =
      some (2 * m / (a.scale_bubble * 80 ^ 2)) ∧
    (bubbleplot f dataset a).all
      (fun fig => fig.data.all
        (fun tr => decide (tr.marker.sizeref =
          some (2 * m / (a.scale_bubble * 80 ^ 2))))) = true := by
  have hcs : computeSizeref dataset (a.size_column.getD "") a.scale_bubble =
      some (2 * m / (a.scale_bubble * 80 ^ 2)) := by
    simp [computeSizeref, hqs, hm]
  refine ⟨hcs, ?_⟩
  rw [option_all_iff]
  intro fig hfig
  obtain ⟨grid, pr, sr, dfs, xr, yr, fig2, hgrid, hpr, hsr, hdfs, hxr, hyr, hfig2,
    hfigeq⟩ := bubbleplot_inv hfig
  have hsrv : sr = some (2 * m / (a.scale_bubble * 80 ^ 2)) := by
    simp only [sizerefOpt, hsz, if_true, hcs, Option.map_some', Option.some.injEq] at hsr
    exact hsr.symm
  have hdata : fig.data = dfs.1 := by
    subst hfigeq
    cases hss : (if truthyS a.time_column = true then a.show_slider else false) <;>
      simp only [hss, Bool.false_eq_true, if_false, if_true]
    · exact (applyRanges_proj hfig2).1
    · rw [(attachFinalSliders_proj fig2 _).1]
      exact (applyRanges_proj hfig2).1
  have hall := buildDataFrames_data_sizeref hsz hdfs
  rw [List.all_eq_true]
  intro tr htr
  rw [decide_eq_true_eq]
  rw [hdata] at htr
  rw [hall tr htr, hsrv]

/-- Witness for C5 at the size column `[10, 20, 40]` with `scale_bubble = 1`:
the size reference is `2 * 40 / (1 * 6400)`, which equals `0.0125` exactly as
the specification example states, and the call succeeds. -/
theorem c5_sizeref_formula_witness :
    computeSizeref
      { cols := [("x", [Value.int 1, Value.int 2, Value.int 3]),
                 ("y", [Value.int 4, Value.int 5, Value.int 6]),
                 ("label", [Value.str "a", Value.str "b", Value.str "c"]),
                 ("size", [Value.int 10, Value.int 20, Value.int 40])] }
      "size" 1 = some (0.0125 : ℚ) ∧
    (bubbleplot (fun q => q)
        { cols := [("x", [Value.int 1, Value.int 2, Value.int 3]),
                   ("y", [Value.int 4, Value.int 5, Value.int 6]),
                   ("label", [Value.str "a", Value.str "b", Value.str "c"]),
                   ("size", [Value.int 10, Value.int 20, Value.int 40])] }
        { defaultArgs "x" "y" "label" with size_column := some "size" }).all
      (fun fig => fig.data.all
        (fun tr => decide (tr.marker.sizeref =
          some (2 * ((40 : Int) : ℚ) / ((1 : ℚ) * 80 ^ 2))))) = true ∧
    (bubbleplot (fun q => q)
        { cols := [("x", [Value.int 1, Value.int 2, Value.int 3]),
                   ("y", [Value.int 4, Value.int 5, Value.int 6]),
                   ("label", [Value.str "a", Value.str "b", Value.str "c"]),
                   ("size", [Value.int 10, Value.int 20, Value.int 40])] }
        { defaultArgs "x" "y" "label" with size_column := some "size" }).isSome =
      true := by
  refine ⟨?_, ?_, by decide⟩
  · have h2 : computeSizeref
        { cols := [("x", [Value.int 1, Value.int 2, Value.int 3]),
                   ("y", [Value.int 4, Value.int 5, Value.int 6]),
                   ("label", [Value.str "a", Value.str "b", Value.str "c"]),
                   ("size", [Value.int 10, Value.int 20, Value.int 40])] }
        "size" 1 = some (2 * ((40 : Int) : ℚ) / ((1 : ℚ) * 80 ^ 2)) :=
      (c5_sizeref_formula (fun q => q)
        { cols := [("x", [Value.int 1, Value.int 2, Value.int 3]),
                   ("y", [Value.int 4, Value.int 5, Value.int 6]),
                   ("label", [Value.str "a", Value.str "b", Value.str "c"]),
                   ("size", [Value.int 10, Value.int 20, Value.int 40])] }
        { defaultArgs "x" "y" "label" with size_column := some "size" }
        [((10 : Int) : ℚ), ((20 : Int) : ℚ), ((40 : Int) : ℚ)] ((40 : Int) : ℚ)
        rfl rfl (by norm_num [qMax])).1
    rw [h2]
    norm_num
  · exact (c5_sizeref_formula (fun q => q)
      { cols := [("x", [Value.int 1, Value.int 2, Value.int 3]),
                 ("y", [Value.int 4, Value.int 5, Value.int 6]),
                 ("label", [Value.str "a", Value.str "b", Value.str "c"]),
                 ("size", [Value.int 10, Value.int 20, Value.int 40])] }
      { defaultArgs "x" "y" "label" with size_column := some "size" }
      [((10 : Int) : ℚ), ((20 : Int) : ℚ), ((40 : Int) : ℚ)] ((40 : Int) : ℚ)
      rfl rfl (by norm_num [qMax])).2

/-! ### Claim C1: grid round-trip -/

/-- Filtering a flattened list filters each block. -/
theorem filter_flatten {α : Type} (p : α → Bool) :
    ∀ ls : List (List α), ls.flatten.filter p = (ls.map (List.filter p)).flatten := by
  intro ls
  induction ls with
  | nil => rfl
  | cons l ls ih => simp [List.filter_append, ih]

/-- A `filterMap` block none of whose keys is `K` contributes nothing to the
filter by `K`. -/
theorem filterMap_filter_none {α : Type} (mk : α → Option GridEntry)
    (keyOf : α → String) (K : String)
    (hkey : ∀ c e, mk c = some e → e.key = keyOf c) :
    ∀ cols : List α, (∀ c ∈ cols, keyOf c ≠ K) →
      (cols.filterMap mk).filter (fun e => e.key == K) = [] := by
  intro cols
  induction cols with
  | nil => intro _; rfl
  | cons c cs ih =>
    intro hne
    rw [List.filterMap_cons]
    cases hmk : mk c with
    | none => exact ih (fun x hx => hne x (List.mem_cons_of_mem c hx))
    | some e =>
      rw [List.filter_cons]
      have : (e.key == K) = false := by
        rw [hkey c e hmk]
        exact beq_eq_false_iff_ne.mpr (hne c (List.mem_cons_self c cs))
      rw [this]
      simp only [Bool.false_eq_true, if_false]
      exact ih (fun x hx => hne x (List.mem_cons_of_mem c hx))

/-- In a `filterMap` block over distinct inputs whose key map is injective
onto `K` at `c0`, the filter by `K` is exactly the optional entry of `c0`. -/
theorem filterMap_filter_unique {α : Type} [DecidableEq α]
    (mk : α → Option GridEntry) (keyOf : α → String) (K : String)
    (hkey : ∀ c e, mk c = some e → e.key = keyOf c) :
    ∀ (cols : List α) (c0 : α), c0 ∈ cols → cols.Nodup →
      (∀ c ∈ cols, keyOf c = K → c = c0) → keyOf c0 = K →
      (cols.filterMap mk).filter (fun e => e.key == K) = (mk c0).toList := by
  intro cols
  induction cols with
  | nil => intro c0 h; exact absurd h (List.not_mem_nil c0)
  | cons c cs ih =>
    intro c0 hmem hnd hinj hK
    have hnotin : c ∉ cs := (List.nodup_cons.mp hnd).1
    by_cases hc : c = c0
    · subst hc
      rw [List.filterMap_cons]
      have hrest : (cs.filterMap mk).filter (fun e => e.key == K) = [] := by
        apply filterMap_filter_none mk keyOf K hkey
        intro x hx hxK
        exact hnotin ((hinj x (List.mem_cons_of_mem c hx) hxK) ▸ hx)
      cases hmk : mk c with
      | none => simpa using hrest
      | some e =>
        rw [List.filter_cons]
        have : (e.key == K) = true := by
          rw [hkey c e hmk, hK]
          exact beq_self_eq_true K
        rw [this]
        simp [hrest]
    · have hmem0 : c0 ∈ cs := by
        rcases List.mem_cons.mp hmem with h | h
        · exact absurd h.symm hc
        · exact h
      rw [List.filterMap_cons]
      have htail := ih c0 hmem0 (List.nodup_cons.mp hnd).2
        (fun x hx hxK => hinj x (List.mem_cons_of_mem c hx) hxK) hK
      cases hmk : mk c with
      | none => exact htail
      | some e =>
        rw [List.filter_cons]
        have : (e.key == K) = false := by
          rw [hkey c e hmk]
          exact beq_eq_false_iff_ne.mpr (fun hxK =>
            hc (hinj c (List.mem_cons_self c cs) hxK))
        rw [this]
        simp only [Bool.false_eq_true, if_false]
        exact htail

/-- If every block of a successful `mapO` filters to nothing, so does the
flattened whole. -/
theorem blocks_filter_zero {α : Type} (bf : α → Option (List GridEntry))
    (K : String) :
    ∀ (xs : List α) (rows : List (List GridEntry)),
      mapO bf xs = some rows →
      (∀ x ∈ xs, ∀ r, bf x = some r → r.filter (fun e => e.key == K) = []) →
      rows.flatten.filter (fun e => e.key == K) = [] := by
  intro xs
  induction xs with
  | nil =>
    intro rows h _
    simp only [mapO, Option.some.injEq] at h
    subst h; rfl
  | cons x xs ih =>
    intro rows h hzero
    obtain ⟨r, rest, hr, hrest, rfl⟩ := mapO_cons_eq_some h
    rw [List.flatten_cons, List.filter_append]
    rw [hzero x (List.mem_cons_self x xs) r hr]
    rw [ih rest hrest (fun y hy => hzero y (List.mem_cons_of_mem x hy))]
    rfl

/-- If exactly the block of `x0` contributes `target` to the filter by `K`
and all other blocks contribute nothing, the flattened whole filters to
`target`. -/
theorem blocks_filter_unique {α : Type} (bf : α → Option (List GridEntry))
    (K : String) (target : List GridEntry) :
    ∀ (xs : List α) (rows : List (List GridEntry)),
      mapO bf xs = some rows → xs.Nodup →
      ∀ x0 ∈ xs,
      (∀ r, bf x0 = some r → r.filter (fun e => e.key == K) = target) →
      (∀ x ∈ xs, x ≠ x0 → ∀ r, bf x = some r →
        r.filter (fun e => e.key == K) = []) →
      rows.flatten.filter (fun e => e.key == K) = target := by
  intro xs
  induction xs with
  | nil => intro rows _ _ x0 h; exact absurd h (List.not_mem_nil x0)
  | cons x xs ih =>
    intro rows h hnd x0 hmem htgt hzero
    obtain ⟨r, rest, hr, hrest, rfl⟩ := mapO_cons_eq_some h
    rw [List.flatten_cons, List.filter_append]
    by_cases hx : x = x0
    · subst hx
      rw [htgt r hr]
      have hnotin : x ∉ xs := (List.nodup_cons.mp hnd).1
      rw [blocks_filter_zero bf K xs rest hrest (fun y hy r2 hr2 =>
        hzero y (List.mem_cons_of_mem x hy)
          (fun hyx => hnotin (hyx ▸ hy)) r2 hr2)]
      simp
    · have hmem0 : x0 ∈ xs := by
        rcases List.mem_cons.mp hmem with h0 | h0
        · exact absurd h0.symm hx
        · exact h0
      rw [hzero x (List.mem_cons_self x xs) hx r hr]
      rw [List.nil_append]
      exact ih rest hrest (List.nodup_cons.mp hnd).2 x0 hmem0 htgt
        (fun y hy => hzero y (List.mem_cons_of_mem x hy))

/-- Every entry in the flattened blocks of a successful `mapO` belongs to
some block. -/
theorem blocks_mem {α : Type} {bf : α → Option (List GridEntry)}
    {xs : List α} {rows : List (List GridEntry)}
    (h : mapO bf xs = some rows) :
    ∀ e ∈ rows.flatten, ∃ x ∈ xs, ∃ r, bf x = some r ∧ e ∈ r := by
  intro e he
  rw [List.mem_flatten] at he
  obtain ⟨r, hr, her⟩ := he
  obtain ⟨x, hx, hbf⟩ := mapO_some_mem h r hr
  exact ⟨x, hx, r, hbf, her⟩

/-- Success form of `gridRowsForYear`: `int()` succeeded on the year and the
rows are the per-column conditional entries. -/
theorem gridRowsForYear_eq_some {d : Dataset} {tc : String} {cols : List String}
    {y : Value} {r : List GridEntry} :
    gridRowsForYear d tc cols y = some r ↔
      ∃ yi, pyInt? y = some yi ∧
        r = cols.filterMap (fun c =>
          if (filterByTime d tc yi c).isEmpty then none
          else some { key := timeKey y c, value := filterByTime d tc yi c }) := by
  constructor
  · intro h
    cases hyi : pyInt? y with
    | none => simp [gridRowsForYear, hyi] at h
    | some yi =>
      have h2 : gridRowsForYear d tc cols y =
          some (cols.filterMap (fun c =>
            if (filterByTime d tc yi c).isEmpty then none
            else some { key := timeKey y c, value := filterByTime d tc yi c })) := by
        simp [gridRowsForYear, hyi]
      exact ⟨yi, rfl, (Option.some.inj (h2.symm.trans h)).symm⟩
  · rintro ⟨yi, hyi, rfl⟩
    simp [gridRowsForYear, hyi]

/-- Success form of `gridRowsForYearCat`. -/
theorem gridRowsForYearCat_eq_some {d : Dataset} {tc cc : String}
    {cols : List String} {y cat : Value} {r : List GridEntry} :
    gridRowsForYearCat d tc cc cols y cat = some r ↔
      ∃ yi, pyInt? y = some yi ∧
        r = cols.filterMap (fun c =>
          if (filterByTimeCat d tc yi cc cat c).isEmpty then none
          else some { key := timeCatKey y c cat,
                      value := filterByTimeCat d tc yi cc cat c }) := by
  constructor
  · intro h
    cases hyi : pyInt? y with
    | none => simp [gridRowsForYearCat, hyi] at h
    | some yi =>
      have h2 : gridRowsForYearCat d tc cc cols y cat =
          some (cols.filterMap (fun c =>
            if (filterByTimeCat d tc yi cc cat c).isEmpty then none
            else some { key := timeCatKey y c cat,
                        value := filterByTimeCat d tc yi cc cat c })) := by
        simp [gridRowsForYearCat, hyi]
      exact ⟨yi, rfl, (Option.some.inj (h2.symm.trans h)).symm⟩
  · rintro ⟨yi, hyi, rfl⟩
    simp [gridRowsForYearCat, hyi]

/-- Round-trip for the time branch of `makeGrid`: every stored value list is
non-empty (a key is present only if its filtered subset is non-empty), and
for each requested (time, column) pair whose composite key does not collide
with another pair, the grid holds exactly the one entry carrying the filtered
column values — and no entry at all when the subset is empty. -/
theorem makeGrid_time_roundtrip {d : Dataset} {cols : List String} {tc : String}
    {ys : List Value} {grid : List GridEntry} (htc : tc ≠ "")
    (h : makeGrid d cols (some tc) (some ys) = some grid)
    (hndY : ys.Nodup) (hndC : cols.Nodup) :
    (∀ e ∈ grid, e.value ≠ []) ∧
    ∀ y0 ∈ ys, ∀ c0 ∈ cols, ∀ yi0, pyInt? y0 = some yi0 →
      (∀ y ∈ ys, ∀ c ∈ cols, timeKey y c = timeKey y0 c0 → y = y0 ∧ c = c0) →
      grid.filter (fun e => e.key == timeKey y0 c0) =
        (if (filterByTime d tc yi0 c0).isEmpty then []
         else [{ key := timeKey y0 c0, value := filterByTime d tc yi0 c0 }]) := by
  have hkey : ∀ (y : Value) (yi : Int) (c : String) (e : GridEntry),
      (if (filterByTime d tc yi c).isEmpty then none
        else some { key := timeKey y c, value := filterByTime d tc yi c }) = some e →
      e.key = timeKey y c := by
    intro y yi c e he
    by_cases hemp : (filterByTime d tc yi c).isEmpty
    · simp [hemp] at he
    · simp only [hemp, Bool.false_eq_true, if_false, Option.some.injEq] at he
      simp [← he]
  have hm : ∃ rows, mapO (gridRowsForYear d tc cols) ys = some rows ∧
      grid = rows.flatten := by
    have hts : truthyS (some tc) = true := by simp [truthyS, htc]
    simp only [makeGrid, hts, if_true, Option.getD_some] at h
    rw [Option.map_eq_some'] at h
    obtain ⟨rows, hrows, hflat⟩ := h
    exact ⟨rows, hrows, hflat.symm⟩
  obtain ⟨rows, hrows, rfl⟩ := hm
  constructor
  · intro e he
    obtain ⟨y, _, r, hbf, her⟩ := blocks_mem hrows e he
    rw [gridRowsForYear_eq_some] at hbf
    obtain ⟨yi, hyi, rfl⟩ := hbf
    rw [List.mem_filterMap] at her
    obtain ⟨c, _, hfc⟩ := her
    by_cases hemp : (filterByTime d tc yi c).isEmpty
    · simp [hemp] at hfc
    · simp only [hemp, Bool.false_eq_true, if_false, Option.some.injEq] at hfc
      rw [← hfc]
      intro hnil
      rw [List.isEmpty_iff] at hemp
      exact hemp hnil
  · intro y0 hy0 c0 hc0 yi0 hyi0 hinj
    apply blocks_filter_unique (gridRowsForYear d tc cols) (timeKey y0 c0) _
      ys rows hrows hndY y0 hy0
    · intro r hr
      rw [gridRowsForYear_eq_some] at hr
      obtain ⟨yi, hyi, rfl⟩ := hr
      have hyieq : yi = yi0 := by
        rw [hyi0] at hyi
        exact (Option.some.inj hyi).symm
      subst hyieq
      rw [filterMap_filter_unique _ (fun c => timeKey y0 c) (timeKey y0 c0)
        (hkey y0 yi) cols c0 hc0 hndC
        (fun c hc hck => (hinj y0 hy0 c hc hck).2) rfl]
      by_cases hemp : (filterByTime d tc yi c0).isEmpty <;> simp [hemp]
    · intro y hy hne r hr
      rw [gridRowsForYear_eq_some] at hr
      obtain ⟨yi, hyi, rfl⟩ := hr
      apply filterMap_filter_none _ (fun c => timeKey y c) (timeKey y0 c0)
        (hkey y yi) cols
      intro c hc hck
      exact hne (hinj y hy c hc hck).1

/-- Round-trip for the time branch of `makeGridWithCategories`, analogous to
`makeGrid_time_roundtrip` with (time, column, category) triples. -/
theorem makeGridCat_time_roundtrip {d : Dataset} {cols : List String}
    {tc cc : String} {ys cs : List Value} {grid : List GridEntry} (htc : tc ≠ "")
    (h : makeGridWithCategories d cols (some tc) cc (some ys) (some cs) = some grid)
    (hndY : ys.Nodup) (hndC : cols.Nodup) (hndS : cs.Nodup) :
    (∀ e ∈ grid, e.value ≠ []) ∧
    ∀ y0 ∈ ys, ∀ c0 ∈ cols, ∀ cat0 ∈ cs, ∀ yi0, pyInt? y0 = some yi0 →
      (∀ y ∈ ys, ∀ c ∈ cols, ∀ cat ∈ cs,
        timeCatKey y c cat = timeCatKey y0 c0 cat0 →
          y = y0 ∧ c = c0 ∧ cat = cat0) →
      grid.filter (fun e => e.key == timeCatKey y0 c0 cat0) =
        (if (filterByTimeCat d tc yi0 cc cat0 c0).isEmpty then []
         else [{ key := timeCatKey y0 c0 cat0,
                 value := filterByTimeCat d tc yi0 cc cat0 c0 }]) := by
  have hkey : ∀ (y cat : Value) (yi : Int) (c : String) (e : GridEntry),
      (if (filterByTimeCat d tc yi cc cat c).isEmpty then none
        else some { key := timeCatKey y c cat,
                    value := filterByTimeCat d tc yi cc cat c }) = some e →
      e.key = timeCatKey y c cat := by
    intro y cat yi c e he
    by_cases hemp : (filterByTimeCat d tc yi cc cat c).isEmpty
    · simp [hemp] at he
    · simp only [hemp, Bool.false_eq_true, if_false, Option.some.injEq] at he
      simp [← he]
  have hm : ∃ rows,
      mapO (fun y => (mapO (gridRowsForYearCat d tc cc cols y) cs).map
        List.flatten) ys = some rows ∧ grid = rows.flatten := by
    have hts : truthyS (some tc) = true := by simp [truthyS, htc]
    simp only [makeGridWithCategories, hts, if_true, Option.getD_some] at h
    rw [Option.map_eq_some'] at h
    obtain ⟨rows, hrows, hflat⟩ := h
    exact ⟨rows, hrows, hflat.symm⟩
  obtain ⟨rows, hrows, rfl⟩ := hm
  constructor
  · intro e he
    obtain ⟨y, _, r, hbf, her⟩ := blocks_mem hrows e he
    rw [Option.map_eq_some'] at hbf
    obtain ⟨rows2, hrows2, hr2⟩ := hbf
    subst hr2
    obtain ⟨cat, _, r2, hbf2, her2⟩ := blocks_mem hrows2 e her
    rw [gridRowsForYearCat_eq_some] at hbf2
    obtain ⟨yi, hyi, rfl⟩ := hbf2
    rw [List.mem_filterMap] at her2
    obtain ⟨c, _, hfc⟩ := her2
    by_cases hemp : (filterByTimeCat d tc yi cc cat c).isEmpty
    · simp [hemp] at hfc
    · simp only [hemp, Bool.false_eq_true, if_false, Option.some.injEq] at hfc
      rw [← hfc]
      intro hnil
      rw [List.isEmpty_iff] at hemp
      exact hemp hnil
  · intro y0 hy0 c0 hc0 cat0 hcat0 yi0 hyi0 hinj
    apply blocks_filter_unique _ (timeCatKey y0 c0 cat0) _ ys rows hrows hndY y0 hy0
    · intro r hr
      rw [Option.map_eq_some'] at hr
      obtain ⟨rows2, hrows2, hr2⟩ := hr
      subst hr2
      apply blocks_filter_unique (gridRowsForYearCat d tc cc cols y0)
        (timeCatKey y0 c0 cat0) _ cs rows2 hrows2 hndS cat0 hcat0
      · intro r2 hr2
        rw [gridRowsForYearCat_eq_some] at hr2
        obtain ⟨yi, hyi, rfl⟩ := hr2
        have hyieq : yi = yi0 := by
          rw [hyi0] at hyi
          exact (Option.some.inj hyi).symm
        subst hyieq
        rw [filterMap_filter_unique _ (fun c => timeCatKey y0 c cat0)
          (timeCatKey y0 c0 cat0) (hkey y0 cat0 yi) cols c0 hc0 hndC
          (fun c hc hck => (hinj y0 hy0 c hc cat0 hcat0 hck).2.1) rfl]
        by_cases hemp : (filterByTimeCat d tc yi cc cat0 c0).isEmpty <;> simp [hemp]
      · intro cat hcat hnecat r2 hr2
        rw [gridRowsForYearCat_eq_some] at hr2
        obtain ⟨yi, hyi, rfl⟩ := hr2
        apply filterMap_filter_none _ (fun c => timeCatKey y0 c cat)
          (timeCatKey y0 c0 cat0) (hkey y0 cat yi) cols
        intro c hc hck
        exact hnecat (hinj y0 hy0 c hc cat hcat hck).2.2
    · intro y hy hney r hr
      rw [Option.map_eq_some'] at hr
      obtain ⟨rows2, hrows2, hr2⟩ := hr
      subst hr2
      apply blocks_filter_zero (gridRowsForYearCat d tc cc cols y)
        (timeCatKey y0 c0 cat0) cs rows2 hrows2
      intro cat hcat r2 hr2
      rw [gridRowsForYearCat_eq_some] at hr2
      obtain ⟨yi, hyi, rfl⟩ := hr2
      apply filterMap_filter_none _ (fun c => timeCatKey y c cat)
        (timeCatKey y0 c0 cat0) (hkey y cat yi) cols
      intro c hc hck
      exact hney (hinj y hy c hc cat hcat hck).1

/-- C1 counterexample, refuting both halves of the claim as stated.
First: the grid builders insert one row per occurrence of a requested column
name, so with a duplicated column name (e.g. the same dataset column passed
as both `x_column` and `y_column`) the grid holds TWO entries under the same
composite key although the corresponding filtered subset is non-empty — not
"exactly one entry".  Second: the no-time branch of `makeGrid` (source lines
308-312) appends every requested column with NO emptiness check, so for an
empty column the key `a_grid` is present although the corresponding subset
(the whole column) is empty — refuting "a key is present in the grid only if
the corresponding filtered subset is non-empty". -/
theorem c1_counterexample :
    (((makeGrid { cols := [("t", [Value.int 2000, Value.int 2000]),
                           ("a", [Value.int 1, Value.int 2])] }
        ["a", "a"] (some "t") (some [Value.int 2000])).map
      (fun grid => (grid.filter (fun e => e.key == "2000+a_grid")).length)) =
      some 2 ∧
    filterByTime { cols := [("t", [Value.int 2000, Value.int 2000]),
                            ("a", [Value.int 1, Value.int 2])] } "t" 2000 "a" ≠ []) ∧
    (makeGrid { cols := [("a", ([] : List Value))] } ["a"] none none =
      some [{ key := "a_grid", value := [] }] ∧
    Dataset.col { cols := [("a", ([] : List Value))] } "a" = []) :=
  ⟨⟨by decide, by decide⟩, by decide, by decide⟩

/-- C1 as amended: provided the requested column names are pairwise distinct
and the composite keys of the requested (time, column[, category])
combinations do not collide, the time-keyed grids built by `makeGrid` and
`makeGridWithCategories` contain, for every combination, exactly one entry
under the composite key holding the dataset's column values filtered to that
subset in original row order when the subset is non-empty, and no entry
under that key when it is empty.  Every key of a time-keyed grid, and every
key of the no-time categorical grid, carries a non-empty value list; the
no-time plain grid of `makeGrid`, however, stores one entry per requested
column unconditionally (holding the whole column), so there a key can be
present with an empty value list. -/
theorem c1_grid_roundtrip (d : Dataset) (cols : List String) (tc cc : String)
    (ys cs : List Value) (htc : tc ≠ "") (hndY : ys.Nodup) (hndC : cols.Nodup)
    (hndS : cs.Nodup) :
    (∀ grid, makeGrid d cols (some tc) (some ys) = some grid →
      (∀ e ∈ grid, e.value ≠ []) ∧
      ∀ y0 ∈ ys, ∀ c0 ∈ cols, ∀ yi0, pyInt? y0 = some yi0 →
        (∀ y ∈ ys, ∀ c ∈ cols, timeKey y c = timeKey y0 c0 → y = y0 ∧ c = c0) →
        grid.filter (fun e => e.key == timeKey y0 c0) =
          (if (filterByTime d tc yi0 c0).isEmpty then []
           else [{ key := timeKey y0 c0, value := filterByTime d tc yi0 c0 }])) ∧
    (∀ grid,
      makeGridWithCategories d cols (some tc) cc (some ys) (some cs) = some grid →
      (∀ e ∈ grid, e.value ≠ []) ∧
      ∀ y0 ∈ ys, ∀ c0 ∈ cols, ∀ cat0 ∈ cs, ∀ yi0, pyInt? y0 = some yi0 →
        (∀ y ∈ ys, ∀ c ∈ cols, ∀ cat ∈ cs,
          timeCatKey y c cat = timeCatKey y0 c0 cat0 →
            y = y0 ∧ c = c0 ∧ cat = cat0) →
        grid.filter (fun e => e.key == timeCatKey y0 c0 cat0) =
          (if (filterByTimeCat d tc yi0 cc cat0 c0).isEmpty then []
           else [{ key := timeCatKey y0 c0 cat0,
                   value := filterByTimeCat d tc yi0 cc cat0 c0 }])) ∧
    (∀ (years? : Option (List Value)) (grid : List GridEntry),
      makeGrid d cols none years? = some grid →
      grid = cols.map (fun c => { key := c ++ "_grid", value := d.col c })) ∧
    (∀ (years? cats? : Option (List Value)) (grid : List GridEntry),
      makeGridWithCategories d cols none cc years? cats? = some grid →
      ∀ e ∈ grid, e.value ≠ []) := by
  refine ⟨fun _ h => makeGrid_time_roundtrip htc h hndY hndC,
    fun _ h => makeGridCat_time_roundtrip htc h hndY hndC hndS, ?_, ?_⟩
  · intro years? grid h
    have h2 : makeGrid d cols none years? =
        some (cols.map (fun c => { key := c ++ "_grid", value := d.col c })) := by
      simp [makeGrid, truthyS]
    exact (Option.some.inj (h2.symm.trans h)).symm
  · intro years? cats? grid h e he
    have h2 : makeGridWithCategories d cols none cc years? cats? =
        some (((cats?.getD (uniq (d.col cc))).map
          (gridRowsForCat d cc cols)).flatten) := by
      simp [makeGridWithCategories, truthyS]
    have hg := Option.some.inj (h2.symm.trans h)
    rw [← hg] at he
    rw [List.mem_flatten] at he
    obtain ⟨r, hr, her⟩ := he
    rw [List.mem_map] at hr
    obtain ⟨cat, _, hcat⟩ := hr
    rw [← hcat] at her
    simp only [gridRowsForCat] at her
    rw [List.mem_filterMap] at her
    obtain ⟨c, _, hfc⟩ := her
    by_cases hemp : (filterByCat d cc cat c).isEmpty
    · simp [hemp] at hfc
    · simp only [hemp, Bool.false_eq_true, if_false, Option.some.injEq] at hfc
      rw [← hfc]
      intro hnil
      rw [List.isEmpty_iff] at hemp
      exact hemp hnil

/-- Witness for C1 (amended) at a concrete three-row dataset with two years,
two requested columns and two categories: the time-keyed builder succeeds,
the filter by the key of (2000, a) is exactly the one expected entry carrying
the filtered column values, and the no-time plain grid is exactly one
whole-column entry per requested column. -/
theorem c1_grid_roundtrip_witness :
    makeGrid
      { cols := [("t", [Value.int 2000, Value.int 2000, Value.int 2001]),
                 ("a", [Value.int 1, Value.int 2, Value.int 3]),
                 ("b", [Value.int 4, Value.int 5, Value.int 6]),
                 ("g", [Value.str "X", Value.str "X", Value.str "Y"])] }
      ["a", "b"] (some "t") (some [Value.int 2000, Value.int 2001]) =
      some [{ key := "2000+a_grid", value := [Value.int 1, Value.int 2] },
            { key := "2000+b_grid", value := [Value.int 4, Value.int 5] },
            { key := "2001+a_grid", value := [Value.int 3] },
            { key := "2001+b_grid", value := [Value.int 6] }] ∧
    ([{ key := "2000+a_grid", value := [Value.int 1, Value.int 2] },
      { key := "2000+b_grid", value := [Value.int 4, Value.int 5] },
      { key := "2001+a_grid", value := [Value.int 3] },
      { key := "2001+b_grid", value := [Value.int 6] }] : List GridEntry).filter
        (fun e => e.key == timeKey (Value.int 2000) "a") =
      (if (filterByTime
          { cols := [("t", [Value.int 2000, Value.int 2000, Value.int 2001]),
                     ("a", [Value.int 1, Value.int 2, Value.int 3]),
                     ("b", [Value.int 4, Value.int 5, Value.int 6]),
                     ("g", [Value.str "X", Value.str "X", Value.str "Y"])] }
          "t" 2000 "a").isEmpty then []
       else [{ key := timeKey (Value.int 2000) "a",
               value := filterByTime
                 { cols := [("t", [Value.int 2000, Value.int 2000, Value.int 2001]),
                            ("a", [Value.int 1, Value.int 2, Value.int 3]),
                            ("b", [Value.int 4, Value.int 5, Value.int 6]),
                            ("g", [Value.str "X", Value.str "X", Value.str "Y"])] }
                 "t" 2000 "a" }]) ∧
    (if (filterByTime
        { cols := [("t", [Value.int 2000, Value.int 2000, Value.int 2001]),
                   ("a", [Value.int 1, Value.int 2, Value.int 3]),
                   ("b", [Value.int 4, Value.int 5, Value.int 6]),
                   ("g", [Value.str "X", Value.str "X", Value.str "Y"])] }
        "t" 2000 "a").isEmpty then ([] : List GridEntry)
     else [{ key := timeKey (Value.int 2000) "a",
             value := filterByTime
               { cols := [("t", [Value.int 2000, Value.int 2000, Value.int 2001]),
                          ("a", [Value.int 1, Value.int 2, Value.int 3]),
                          ("b", [Value.int 4, Value.int 5, Value.int 6]),
                          ("g", [Value.str "X", Value.str "X", Value.str "Y"])] }
               "t" 2000 "a" }]) =
      [{ key := "2000+a_grid", value := [Value.int 1, Value.int 2] }] ∧
    ([{ key := "a_grid", value := [Value.int 1, Value.int 2, Value.int 3] },
      { key := "b_grid", value := [Value.int 4, Value.int 5, Value.int 6] }] :
        List GridEntry) =
      ["a", "b"].map (fun c =>
        { key := c ++ "_grid",
          value := Dataset.col
            { cols := [("t", [Value.int 2000, Value.int 2000, Value.int 2001]),
                       ("a", [Value.int 1, Value.int 2, Value.int 3]),
                       ("b", [Value.int 4, Value.int 5, Value.int 6]),
                       ("g", [Value.str "X", Value.str "X", Value.str "Y"])] } c }) := by
  refine ⟨by decide, ?_, by decide, ?_⟩
  case refine_2 =>
    exact ((c1_grid_roundtrip
        { cols := [("t", [Value.int 2000, Value.int 2000, Value.int 2001]),
                   ("a", [Value.int 1, Value.int 2, Value.int 3]),
                   ("b", [Value.int 4, Value.int 5, Value.int 6]),
                   ("g", [Value.str "X", Value.str "X", Value.str "Y"])] }
        ["a", "b"] "t" "g" [Value.int 2000, Value.int 2001]
        [Value.str "X", Value.str "Y"] (by decide) (by decide) (by decide)
        (by decide)).2.2.1)
      none
      [{ key := "a_grid", value := [Value.int 1, Value.int 2, Value.int 3] },
       { key := "b_grid", value := [Value.int 4, Value.int 5, Value.int 6] }]
      (by decide)
  exact ((c1_grid_roundtrip
      { cols := [("t", [Value.int 2000, Value.int 2000, Value.int 2001]),
                 ("a", [Value.int 1, Value.int 2, Value.int 3]),
                 ("b", [Value.int 4, Value.int 5, Value.int 6]),
                 ("g", [Value.str "X", Value.str "X", Value.str "Y"])] }
      ["a", "b"] "t" "g" [Value.int 2000, Value.int 2001]
      [Value.str "X", Value.str "Y"] (by decide) (by decide) (by decide)
      (by decide)).1
    [{ key := "2000+a_grid", value := [Value.int 1, Value.int 2] },
     { key := "2000+b_grid", value := [Value.int 4, Value.int 5] },
     { key := "2001+a_grid", value := [Value.int 3] },
     { key := "2001+b_grid", value := [Value.int 6] }] (by decide)).2
    (Value.int 2000) (by decide) "a" (by decide) 2000 rfl (by decide)

end Bubbly
